import Mathlib

/-!
# The LMTP protocol engine of dbmail (`src/lmtp.c`)

A shallow embedding of `lmtp_error`, `lmtp_tokenizer`, `lmtp` and `lmtp_cb_read`.

* C strings are lists of characters (the terminating NUL is left out).
* A session is a record; every `ci_write` appends one entry to `tx`, every call of the
  resolver and of the store appends one entry to `resolved` / `inserted`, so that
  "which replies were written" and "was the store called" are observable.
* The resolver, the store, `dsn_tostring` and the help table are external collaborators
  and are passed in as a record of functions.
* `lmtp` returns `none` where the C function does not return normally (a NULL
  dereference, a walk over a cyclic list).
-/

namespace Lmtp

/-- Text of a C string, terminator left out. -/
abbrev Str := List Char

/-! ## libc and glib helpers -/

/-- The libc `tolower` in the C locale. -/
def tolower (c : Char) : Char :=
  if 65 ≤ c.toNat ∧ c.toNat ≤ 90 then Char.ofNat (c.toNat + 32) else c

/-- The libc `strcasecmp`: zero exactly when the two texts agree up to ASCII case,
otherwise a negative or positive number by the lexicographic order. -/
def strcasecmp (a b : Str) : Int :=
  if a.map tolower = b.map tolower then 0
  else if a.map (fun c => (tolower c).toNat) < b.map (fun c => (tolower c).toNat) then -1
  else 1

/-- The libc `strncmp`: zero exactly when the first `n` characters agree. -/
def strncmp (a b : Str) (n : Nat) : Int :=
  if a.take n = b.take n then 0
  else if (a.take n).map Char.toNat < (b.take n).map Char.toNat then -1
  else 1

/-- Does the text `hay` begin with the text `needle`. -/
def begins_with (needle hay : Str) : Bool :=
  hay.take needle.length == needle

/-- The libc `strstr`, as the offset of the first occurrence (`none` for NULL). -/
def strstr : Str → Str → Option Nat
  | [], needle => if begins_with needle [] then some 0 else none
  | c :: rest, needle =>
    if begins_with needle (c :: rest) then some 0
    else (strstr rest needle).map (fun i => i + 1)

/-- A glib `GList *`: a pointer to one node of a doubly linked list. `next` holds the
data of that node and of the nodes after it, `prev` the data of the nodes before it,
nearest first. `NULL` is the pointer with no node on either side. -/
structure GList (α : Type) where
  prev : List α
  next : List α
deriving DecidableEq, Repr

/-- The NULL list. -/
def GList.NULL {α : Type} : GList α := { prev := [], next := [] }

/-- The glib `g_list_length`: the nodes from the pointer on. -/
def g_list_length {α : Type} (list : GList α) : Nat := list.next.length

/-- The glib `g_list_prepend`: the new node is linked in right before the node pointed
to and becomes the pointer. -/
def g_list_prepend {α : Type} (list : GList α) (data : α) : GList α :=
  { list with next := data :: list.next }

/-- The glib `g_list_reverse`. On the head of a list the result is the reversed list.
On a node that has predecessors the relinked nodes form a cycle (the old predecessor
still points forward to the node that now points to it), so that no walk over the
result ends: `none`. -/
def g_list_reverse {α : Type} (list : GList α) : Option (GList α) :=
  match list.prev, list.next with
  | [], next => some { prev := [], next := next.reverse }
  | _ :: _, [] => some list
  | _ :: _, _ :: _ => none

/-- Decimal digits, as `%d` prints a non-negative int. -/
def fmt_d (n : Nat) : Str := Nat.toDigits 10 n

/-! ## Constants and types of `dbmail.h` -/

/-- The constant `MAX_ERRORS` of lmtp.c. -/
def MAX_ERRORS : Nat := 3

/-- The glib truth value `TRUE`. -/
def TRUE : Int := 1

/-- The glib truth value `FALSE`. -/
def FALSE : Int := 0

/-- The table `commands` of lmtp.c. -/
def commands : List Str :=
  ["LHLO".toList, "QUIT".toList, "RSET".toList, "DATA".toList, "MAIL".toList,
   "VRFY".toList, "EXPN".toList, "HELP".toList, "NOOP".toList, "RCPT".toList]

/-- Modelled from the spec: the command numbers `LMTP_STRT` .. `LMTP_END` are declared in
dbmail.h, which is not part of the sources at hand. The tokenizer compares the verb with
`commands[command_type]` for `LMTP_STRT <= command_type < LMTP_END` and the spec has
all ten names of the table recognised, so each number is the position of its name in
`commands`, the lower bound is 0 and the upper bound 10. -/
def LMTP_STRT : Nat := 0

/-- Modelled from the spec: position of LHLO in `commands` (see `LMTP_STRT`). -/
def LMTP_LHLO : Nat := 0

/-- Modelled from the spec: position of QUIT in `commands` (see `LMTP_STRT`). -/
def LMTP_QUIT : Nat := 1

/-- Modelled from the spec: position of RSET in `commands` (see `LMTP_STRT`). -/
def LMTP_RSET : Nat := 2

/-- Modelled from the spec: position of DATA in `commands` (see `LMTP_STRT`). -/
def LMTP_DATA : Nat := 3

/-- Modelled from the spec: position of MAIL in `commands` (see `LMTP_STRT`). -/
def LMTP_MAIL : Nat := 4

/-- Modelled from the spec: position of VRFY in `commands` (see `LMTP_STRT`). -/
def LMTP_VRFY : Nat := 5

/-- Modelled from the spec: position of EXPN in `commands` (see `LMTP_STRT`). -/
def LMTP_EXPN : Nat := 6

/-- Modelled from the spec: position of HELP in `commands` (see `LMTP_STRT`). -/
def LMTP_HELP : Nat := 7

/-- Modelled from the spec: position of NOOP in `commands` (see `LMTP_STRT`). -/
def LMTP_NOOP : Nat := 8

/-- Modelled from the spec: position of RCPT in `commands` (see `LMTP_STRT`). -/
def LMTP_RCPT : Nat := 9

/-- Modelled from the spec: one past the last position of `commands` (see `LMTP_STRT`). -/
def LMTP_END : Nat := 10

/-- Modelled from the spec: the session states, declared in dbmail.h. The spec lists
Greeting (on connect), Authenticated (after LHLO), DataBody and LoggedOut. -/
inductive ClientState where
  | Greeting
  | Authenticated
  | DataBody
  | LoggedOut
deriving DecidableEq, Repr

/-- Modelled from the spec: the state an accepted LHLO sets. -/
def IMAPCS_AUTHENTICATED : ClientState := ClientState.Authenticated

/-- Modelled from the spec: the state QUIT and the idle timeout set. -/
def IMAPCS_LOGOUT : ClientState := ClientState.LoggedOut

/-- The delivery status triple `dsn` of a recipient (class, subject, detail). -/
structure delivery_status_t where
  class_ : Nat
  subject : Nat
  detail : Nat
deriving DecidableEq, Repr

/-- The class of a deliverable address; lmtp.c: "Class 2 means the address was
deliverable in some way". -/
def DSN_CLASS_OK : Nat := 2

/-- One recipient: the address taken from the RCPT argument and its status. -/
structure deliver_to_user_t where
  address : Str
  dsn : delivery_status_t
deriving DecidableEq, Repr

/-- The session. `sender` is the C field `from`. The last four fields record what the
session did to its surroundings: the texts handed to `ci_write`, whether
`client_session_bailout` was called, the addresses handed to `dsnuser_resolve`, and the
(message text, Return-Path, recipient list) triples handed to `insert_messages`. -/
structure ClientSession_t where
  hostname : Str
  state : ClientState
  command_type : Nat
  parser_state : Int
  args : List Str
  sender : List Str
  rcpt : GList deliver_to_user_t
  rbuff : Str
  error_count : Nat
  SessionResult : Nat
  tx : List Str
  bailed_out : Bool
  resolved : List Str
  inserted : List (Str × Str × GList deliver_to_user_t)
deriving DecidableEq, Repr

/-- The external collaborators of the engine: the resolver (`none` for a non-zero
return, otherwise the status it assigns), the store (its int result), the status texts
and the help table. -/
structure Collaborators where
  dsnuser_resolve : Str → Option delivery_status_t
  insert_messages : Str → Str → GList deliver_to_user_t → Int
  dsn_tostring : delivery_status_t → Str × Str × Str
  LMTP_HELP_TEXT : Nat → Str

/-- The transport's `ci_write`: one more text on the wire. -/
def ci_write (session : ClientSession_t) (text : Str) : ClientSession_t :=
  { session with tx := session.tx ++ [text] }

/-- Modelled from the spec: `strip_crlf` is defined outside lmtp.c; the tokenizer
"strips trailing CR/LF". -/
def strip_crlf (buffer : Str) : Str :=
  (buffer.reverse.dropWhile (fun c => c == '\r' || c == '\n')).reverse

/-- Modelled from the spec: `client_session_bailout` is defined outside lmtp.c; it
tears the connection down. The model records that it was called. -/
def client_session_bailout (session : ClientSession_t) : ClientSession_t :=
  { session with bailed_out := true }

/-- Modelled from the spec: `client_session_reset` is defined outside lmtp.c; RSET and
LHLO "clear sender/recipients/buffer" and leave the error count alone. -/
def client_session_reset (session : ClientSession_t) : ClientSession_t :=
  { session with sender := [], rcpt := GList.NULL, rbuff := [] }

/-- Modelled from the spec: `client_session_reset_parser` (the trailing underscore is
only in this file's name for it) is defined outside lmtp.c;
after a complete command the session "returns to accepting ordinary commands": no
command in progress, no pending arguments, and the buffer "cleared after the message
is consumed". -/
def client_session_reset_parser_ (session : ClientSession_t) : ClientSession_t :=
  { session with parser_state := FALSE, command_type := 0, args := [], rbuff := [] }

/-- Modelled from the spec: `find_bounded` is defined outside lmtp.c; "find the first
`<...>` pair anywhere in the argument; the address is the substring between them". The
result is the address (`none` for NULL), its length, and the offset of the closing
character; all three are empty or zero when there is no pair. -/
def find_bounded (value : Str) (left right : Char) : Option Str × Nat × Nat :=
  let i := value.findIdx (fun c => c == left)
  if value.length ≤ i then (none, 0, 0)
  else
    let rest := value.drop (i + 1)
    let j := rest.findIdx (fun c => c == right)
    if rest.length ≤ j then (none, 0, 0)
    else (some (rest.take j), j, i + 1 + j)

/-- Modelled from the spec: the macro `MATCH` of dbmail.h; the value "is compared
case-insensitively". -/
def MATCH (x y : Str) : Bool := strcasecmp x y == 0

/-! ## The error guard -/

/-- A printf-style formatting of a format without arguments, as `g_strdup_vprintf` and
`ci_write` do it when no argument is passed: `%%` gives one `%` and every other character
is copied. Any other conversion would read an argument that is not there, which C leaves
undefined: `none`. `pending` tells that the character before was an unpaired `%`. -/
def printf_plain : Bool → Str → Option Str
  | false, [] => some []
  | true, [] => none
  | false, c :: rest =>
    if c = '%' then printf_plain true rest
    else (printf_plain false rest).map (fun text => c :: text)
  | true, c :: rest =>
    if c = '%' then (printf_plain false rest).map (fun text => '%' :: text)
    else none

/-- The text `lmtp_error` writes for a format: the format goes through
`g_strdup_vprintf` and the result through the printf-like `ci_write` once more. -/
def formatted_twice (formatstring : Str) : Option Str :=
  (printf_plain false formatstring).bind (printf_plain false)

/-- The function `lmtp_error` of lmtp.c, without its variable arguments, which no caller
passes. Below the threshold the format is formatted twice, `defined` saying that both
passes are defined; the closing reply is a text without conversions. -/
def lmtp_error (session : ClientSession_t) (formatstring : Str)
    (defined : ¬ session.error_count ≥ MAX_ERRORS →
      (formatted_twice formatstring).isSome = true) : Int × ClientSession_t :=
  if h : session.error_count ≥ MAX_ERRORS then
    let session := ci_write session "500 Too many errors, closing connection.\r\n".toList
    let session := { session with SessionResult := 2 }
    let session := client_session_bailout session
    (-3, session)
  else
    let s := (formatted_twice formatstring).get (defined h)
    let session := ci_write session s
    (1, { session with error_count := session.error_count + 1 })

/-! ## The tokenizer -/

/-- The loop `for (command_type = LMTP_STRT; command_type < LMTP_END; command_type++)`
of lmtp.c, which stops at the first name equal to the verb up to case: `n` rounds are
left, `command_type` is the loop variable. -/
def scan_commands (command : Str) : Nat → Nat → Nat
  | 0, command_type => command_type
  | n + 1, command_type =>
    if strcasecmp command (commands.getD command_type []) = 0 then command_type
    else scan_commands command n (command_type + 1)

/-- The part of `lmtp_tokenizer` before the first space of the stripped line. -/
def split_command (command : Str) : Str :=
  match strstr command " ".toList with
  | some i => command.take i
  | none => command

/-- The pointer `value` of `lmtp_tokenizer`: what follows the first space of the
stripped line, NULL when there is no space or nothing after it. -/
def split_value (command : Str) : Option Str :=
  match strstr command " ".toList with
  | some i => if (command.drop (i + 1)).length = 0 then none else some (command.drop (i + 1))
  | none => none

/-- The second half of `lmtp_tokenizer` (from `if (session->command_type == LMTP_DATA)`
on); `command` tells whether the pointer `command` is set, which it is exactly when the
first half parsed the line as a command. -/
def tokenizer_data (session : ClientSession_t) (buffer : Str) (command : Bool) :
    Int × ClientSession_t :=
  if session.command_type = LMTP_DATA then
    if command then
      if session.state ≠ IMAPCS_AUTHENTICATED then
        (TRUE, ci_write session "550 Command out of sequence\r\n".toList)
      else if g_list_length session.rcpt < 1 then
        (TRUE, ci_write session "503 No valid recipients\r\n".toList)
      else if session.sender.length < 1 then
        (TRUE, ci_write session "554 No valid sender.\r\n".toList)
      else
        (FALSE, ci_write session "354 Start mail input; end with <CRLF>.<CRLF>\r\n".toList)
    else if strncmp buffer ".\n".toList 2 = 0 then
      (TRUE, { session with parser_state := TRUE })
    else
      (session.parser_state, { session with rbuff := session.rbuff ++ buffer })
  else
    (TRUE, { session with parser_state := TRUE })

/-- The function `lmtp_tokenizer` of lmtp.c: the int it returns and the session it
leaves. -/
def lmtp_tokenizer (session : ClientSession_t) (buffer : Str) : Int × ClientSession_t :=
  if session.command_type = 0 then
    let session := { session with parser_state := FALSE }
    let command := split_command (strip_crlf buffer)
    let value := split_value (strip_crlf buffer)
    let command_type := scan_commands command (LMTP_END - LMTP_STRT) LMTP_STRT
    if command_type = LMTP_END then
      lmtp_error session "500 Invalid command.\r\n".toList (fun _ => by decide)
    else if value = none ∧
        ¬ (command_type = LMTP_LHLO ∨ command_type = LMTP_DATA ∨
           command_type = LMTP_RSET ∨ command_type = LMTP_QUIT ∨
           command_type = LMTP_NOOP ∨ command_type = LMTP_HELP) then
      lmtp_error session "500 This command requires an argument.\r\n".toList
        (fun _ => by decide)
    else
      let session := { session with command_type := command_type }
      let session :=
        match value with
        | some v => { session with args := session.args ++ [v] }
        | none => session
      tokenizer_data session buffer true
  else
    tokenizer_data session buffer false

/-! ## The dispatcher -/

/-- The head of `g_list_first(session->args)`, NULL when there is no argument. -/
def first_arg (session : ClientSession_t) : Option Str := session.args.head?

/-- The reply line of one recipient after DATA, as the loop of `lmtp` formats it. -/
def rcpt_reply (env : Collaborators) (dsnuser : deliver_to_user_t) : Str :=
  if dsnuser.dsn.class_ = DSN_CLASS_OK then
    fmt_d dsnuser.dsn.class_ ++ fmt_d dsnuser.dsn.subject ++ fmt_d dsnuser.dsn.detail
      ++ " Recipient <".toList ++ dsnuser.address ++ "> OK\r\n".toList
  else
    fmt_d dsnuser.dsn.class_ ++ fmt_d dsnuser.dsn.subject ++ fmt_d dsnuser.dsn.detail
      ++ " Recipient <".toList ++ dsnuser.address ++ "> ".toList
      ++ (env.dsn_tostring dsnuser.dsn).1 ++ " ".toList
      ++ (env.dsn_tostring dsnuser.dsn).2.1 ++ " ".toList
      ++ (env.dsn_tostring dsnuser.dsn).2.2 ++ "\r\n".toList

/-- The loop `while (session->rcpt)` of the DATA case: one reply for the node pointed
to, then the pointer moves on unless the node is the last one. `prev` and `next` are
the two sides of `session->rcpt`. -/
def rcpt_walk (env : Collaborators) (session : ClientSession_t) :
    List deliver_to_user_t → List deliver_to_user_t → ClientSession_t
  | prev, [] => { session with rcpt := { prev := prev, next := [] } }
  | prev, [d] =>
    { ci_write session (rcpt_reply env d) with rcpt := { prev := prev, next := [d] } }
  | prev, d :: e :: rest =>
    rcpt_walk env (ci_write session (rcpt_reply env d)) (d :: prev) (e :: rest)

/-- The case `LMTP_HELP` of `lmtp`. -/
def lmtp_help (env : Collaborators) (session : ClientSession_t) :
    Option (Int × ClientSession_t) :=
  let helpcmd :=
    match first_arg session with
    | none => LMTP_END
    | some arg => scan_commands arg (LMTP_END - LMTP_STRT) LMTP_STRT
  if helpcmd = LMTP_LHLO ∨ helpcmd = LMTP_DATA ∨ helpcmd = LMTP_RSET ∨
      helpcmd = LMTP_QUIT ∨ helpcmd = LMTP_NOOP ∨ helpcmd = LMTP_HELP then
    some (1, ci_write session (env.LMTP_HELP_TEXT helpcmd))
  else
    some (1, ci_write session (env.LMTP_HELP_TEXT LMTP_END))

/-- The pointer `tmpbody` of the case `LMTP_MAIL`: what follows the first `=` at or
after offset `tmppos` of the argument, NULL when there is none. -/
def mail_body (arg : Str) (tmppos : Nat) : Option Str :=
  match strstr (arg.drop tmppos) "=".toList with
  | some i => some (arg.drop (tmppos + i + 1))
  | none => none

/-- The case `LMTP_MAIL` of `lmtp`. -/
def lmtp_mail (session : ClientSession_t) : Option (Int × ClientSession_t) :=
  if session.state ≠ IMAPCS_AUTHENTICATED then
    some (1, ci_write session "550 Command out of sequence.\r\n".toList)
  else if session.sender.length > 0 then
    some (1, ci_write session "500 Sender already received. Use RSET to clear.\r\n".toList)
  else
    match first_arg session with
    | none => some (1, session)
    | some arg =>
      let tmpaddr := (find_bounded arg '<' '>').1
      let tmplen := (find_bounded arg '<' '>').2.1
      let tmppos := (find_bounded arg '<' '>').2.2
      let tmpbody := mail_body arg tmppos
      match tmpaddr with
      | none => some (1, ci_write session "500 No address found.\r\n".toList)
      | some addr =>
        if tmplen = 0 then
          some (1, ci_write session "500 No address found.\r\n".toList)
        else if tmpbody.any (fun b => MATCH b "8BITMIME".toList) then
          some (1, ci_write session "500 Please use 7BIT MIME only.\r\n".toList)
        else if tmpbody.any (fun b => MATCH b "BINARYMIME".toList) then
          some (1, ci_write session "500 Please use 7BIT MIME only.\r\n".toList)
        else
          let session := { session with sender := addr :: session.sender }
          some (1, ci_write session ("250 Sender <".toList ++ addr ++ "> OK\r\n".toList))

/-- The case `LMTP_RCPT` of `lmtp`. -/
def lmtp_rcpt (env : Collaborators) (session : ClientSession_t) :
    Option (Int × ClientSession_t) :=
  if session.state ≠ IMAPCS_AUTHENTICATED then
    some (1, ci_write session "550 Command out of sequence.\r\n".toList)
  else
    match first_arg session with
    | none => some (1, session)
    | some arg =>
      let tmpaddr := (find_bounded arg '<' '>').1
      let tmplen := (find_bounded arg '<' '>').2.1
      if tmplen < 1 then
        some (1, ci_write session "500 No address found.\r\n".toList)
      else
        let address := tmpaddr.getD []
        let session := { session with resolved := session.resolved ++ [address] }
        match env.dsnuser_resolve address with
        | none =>
          some (1, ci_write session "430 Temporary failure in recipient lookup\r\n".toList)
        | some dsn =>
          if dsn.class_ = DSN_CLASS_OK then
            let session := ci_write session
              ("250 Recipient <".toList ++ address ++ "> OK\r\n".toList)
            some (1, { session with
              rcpt := g_list_prepend session.rcpt { address := address, dsn := dsn } })
          else
            some (1, ci_write session
              ("550 Recipient <".toList ++ address ++ "> FAIL\r\n".toList))

/-- The case `LMTP_DATA` of `lmtp`. It does not return when `session->from` is NULL
(the Return-Path is read through it) and when the recipient pointer is not the head of
its list (the reversed list is cyclic). -/
def lmtp_data (env : Collaborators) (session : ClientSession_t) :
    Option (Int × ClientSession_t) :=
  match session.sender with
  | [] => none
  | return_path :: _ =>
    let msg := session.rbuff
    let session := { session with rbuff := [] }
    let session :=
      { session with inserted := session.inserted ++ [(msg, return_path, session.rcpt)] }
    if env.insert_messages msg return_path session.rcpt = -1 then
      some (1, ci_write session "430 Message not received\r\n".toList)
    else
      match g_list_reverse session.rcpt with
      | none => none
      | some reversed => some (1, rcpt_walk env session reversed.prev reversed.next)

/-- The function `lmtp` of lmtp.c: the int it returns and the session it leaves, `none`
when it does not return (see `lmtp_data`). Timeouts are outside the model, so the call
of `client_session_set_timeout` in the LHLO case has no counterpart. -/
def lmtp (env : Collaborators) (session : ClientSession_t) : Option (Int × ClientSession_t) :=
  if session.command_type = LMTP_QUIT then
    some (1, { ci_write session ("221 ".toList ++ session.hostname ++ " BYE\r\n".toList) with
      state := IMAPCS_LOGOUT })
  else if session.command_type = LMTP_NOOP then
    some (1, ci_write session "250 OK\r\n".toList)
  else if session.command_type = LMTP_RSET then
    some (1, client_session_reset (ci_write session "250 OK\r\n".toList))
  else if session.command_type = LMTP_LHLO then
    some (1, { client_session_reset (ci_write session ("250-".toList ++ session.hostname
      ++ "\r\n250-PIPELINING\r\n250-ENHANCEDSTATUSCODES\r\n250 SIZE\r\n".toList)) with
      state := IMAPCS_AUTHENTICATED })
  else if session.command_type = LMTP_HELP then
    lmtp_help env session
  else if session.command_type = LMTP_VRFY then
    some (1, ci_write session "502 Command not implemented\r\n".toList)
  else if session.command_type = LMTP_EXPN then
    some (1, ci_write session "502 Command not implemented\r\n".toList)
  else if session.command_type = LMTP_MAIL then
    lmtp_mail session
  else if session.command_type = LMTP_RCPT then
    lmtp_rcpt env session
  else if session.command_type = LMTP_DATA then
    lmtp_data env session
  else
    some (lmtp_error session "500 What are you trying to say here?\r\n".toList
      (fun _ => by decide))

/-! ## The read handler -/

/-- The body of the loop of `lmtp_cb_read` for one line: the tokenizer, and when its
result is non-zero the dispatcher followed by the parser reset. -/
def lmtp_cb_read_line (env : Collaborators) (session : ClientSession_t) (buffer : Str) :
    Option ClientSession_t :=
  if (lmtp_tokenizer session buffer).1 ≠ 0 then
    match lmtp env (lmtp_tokenizer session buffer).2 with
    | none => none
    | some r => some (client_session_reset_parser_ r.2)
  else
    some (lmtp_tokenizer session buffer).2

/-- The function `lmtp_cb_read` of lmtp.c on the lines the transport holds.
Modelled from the spec: `ci_readln` is defined outside lmtp.c; it hands over the next
line, terminator included, and hands over nothing once the session was torn down
("further input is not processed"). -/
def lmtp_cb_read (env : Collaborators) : ClientSession_t → List Str → Option ClientSession_t
  | session, [] => some session
  | session, buffer :: pending =>
    if session.bailed_out then some session
    else
      match lmtp_cb_read_line env session buffer with
      | none => none
      | some session => lmtp_cb_read env session pending

/-- The function `lmtp_cb_time` of lmtp.c, the idle-timeout callback. -/
def lmtp_cb_time (session : ClientSession_t) : ClientSession_t :=
  { ci_write session "221 Connection timeout BYE\r\n".toList with state := IMAPCS_LOGOUT }

/-- Modelled from the spec: `client_session_new` is defined outside lmtp.c; a session
starts in state Greeting with no sender, no recipients, an empty buffer and no errors. -/
def client_session_new (hostname : Str) : ClientSession_t :=
  { hostname := hostname, state := ClientState.Greeting, command_type := 0,
    parser_state := FALSE, args := [], sender := [], rcpt := GList.NULL, rbuff := [],
    error_count := 0, SessionResult := 0, tx := [], bailed_out := false,
    resolved := [], inserted := [] }

/-! ## Derived definitions used in the statements -/

/-- Where the loop of the DATA case leaves the recipient pointer: on the last node. -/
def rcpt_walk_end {α : Type} : List α → List α → GList α
  | prev, [] => { prev := prev, next := [] }
  | prev, [d] => { prev := prev, next := [d] }
  | prev, d :: e :: rest => rcpt_walk_end (d :: prev) (e :: rest)

/-- The spec's split, verb: the text of a line before its first space. -/
def spec_verb (line : Str) : Str := line.takeWhile (fun c => c != ' ')

/-- The spec's split, remainder: the text of a line after its first space, an absent or
empty remainder meaning no argument. -/
def spec_remainder (line : Str) : Option Str :=
  match line.dropWhile (fun c => c != ' ') with
  | [] => none
  | _ :: rest => if rest = [] then none else some rest

/-- The spec's list of the verbs that need no argument. -/
def no_argument_verbs : List Str :=
  ["LHLO".toList, "DATA".toList, "RSET".toList, "QUIT".toList, "NOOP".toList, "HELP".toList]

/-- The spec's acceptance rule: a line is accepted when its verb is one of the ten command
names up to case and either an argument is present or the verb needs none. -/
def spec_accepts (line : Str) : Bool :=
  commands.any (fun name =>
    decide (strcasecmp (spec_verb line) name = 0) &&
      ((spec_remainder line).isSome || no_argument_verbs.contains name))

/-! ## Sample collaborators and sessions -/

/-- A resolver that finds every address deliverable (status 2.1.5) and a store that
succeeds. -/
def deliverable_env : Collaborators :=
  { dsnuser_resolve := fun _ => some { class_ := 2, subject := 1, detail := 5 },
    insert_messages := fun _ _ _ => 0,
    dsn_tostring := fun _ => ("Success".toList, "Address".toList, "Valid".toList),
    LMTP_HELP_TEXT := fun _ => "214 Help\r\n".toList }

/-- The collaborators of `deliverable_env` with a store that fails. -/
def failing_store_env : Collaborators :=
  { deliverable_env with insert_messages := fun _ _ _ => -1 }

/-- The LHLO banner of host mx. -/
def banner_mx : Str :=
  "250-mx\r\n250-PIPELINING\r\n250-ENHANCEDSTATUSCODES\r\n250 SIZE\r\n".toList

/-- A fresh session of host mx, before LHLO, with MAIL FROM:<a> tokenized. -/
def early_mail_session : ClientSession_t :=
  { client_session_new "mx".toList with
    command_type := LMTP_MAIL, args := ["FROM:<a>".toList] }

/-- A session after LHLO and MAIL FROM:<a>, with MAIL FROM:<b> tokenized. -/
def second_mail_session : ClientSession_t :=
  { client_session_new "mx".toList with
    state := ClientState.Authenticated, sender := ["a".toList],
    command_type := LMTP_MAIL, args := ["FROM:<b>".toList] }

/-- An Authenticated session of host mx with sender a and no recipient yet. -/
def sender_session : ClientSession_t :=
  { client_session_new "mx".toList with
    state := ClientState.Authenticated, sender := ["a".toList] }

/-- The recipient b with the status 2.1.5 of `deliverable_env`. -/
def rcpt_b : deliver_to_user_t :=
  { address := "b".toList, dsn := { class_ := 2, subject := 1, detail := 5 } }

/-- A session of host mx that has counted three errors. -/
def flood_session : ClientSession_t :=
  { client_session_new "mx".toList with error_count := 3 }

/-- An Authenticated session of host mx with sender a and the recipient b. -/
def ready_session : ClientSession_t :=
  { sender_session with rcpt := g_list_prepend GList.NULL rcpt_b }

/-- The session `ready_session` in body collection: DATA is in progress and one body
line is in the buffer. -/
def body_session : ClientSession_t :=
  { ready_session with command_type := LMTP_DATA, rbuff := "hello\r\n".toList }

/-- The session `sender_session` with the tokenized command RCPT and argument `arg`. -/
def rcpt_session (arg : Str) : ClientSession_t :=
  { sender_session with command_type := LMTP_RCPT, args := [arg] }

/-- An Authenticated session of host mx without sender, with the tokenized command MAIL
and argument `arg`. -/
def mail_session (arg : Str) : ClientSession_t :=
  { sender_session with sender := [], command_type := LMTP_MAIL, args := [arg] }

/-- A session of host mx in state LoggedOut. -/
def logged_out_session : ClientSession_t :=
  { client_session_new "mx".toList with state := ClientState.LoggedOut }

/-- The collaborators of `deliverable_env` with a resolver that classifies every address
as a permanent failure (status 5.1.1). -/
def rejecting_env : Collaborators :=
  { deliverable_env with
    dsnuser_resolve := fun _ => some { class_ := 5, subject := 1, detail := 1 } }

/-- The collaborators of `deliverable_env` with a resolver that fails. -/
def unavailable_env : Collaborators :=
  { deliverable_env with dsnuser_resolve := fun _ => none }

/-- The session `body_session` with the tokenized command RSET. -/
def rset_session : ClientSession_t :=
  { body_session with command_type := LMTP_RSET }

/-! ## The error guard -/

section ErrorGuard

/-- A text without `%` is formatted to itself. -/
theorem printf_plain_of_plain :
    ∀ text : Str, '%' ∉ text → printf_plain false text = some text
  | [], _ => rfl
  | c :: rest, h => by
    have hc : ¬ c = '%' := fun e => h (by simp [e])
    have hr : '%' ∉ rest := fun e => h (by simp [e])
    rw [printf_plain, if_neg hc, printf_plain_of_plain rest hr]
    rfl

/-- A text without `%` comes out of both formatting passes as it went in. -/
theorem formatted_twice_of_plain (text : Str) (h : '%' ∉ text) :
    formatted_twice text = some text := by
  unfold formatted_twice
  rw [printf_plain_of_plain text h]
  exact printf_plain_of_plain text h

/-- Below the threshold the error guard writes the twice formatted message and counts
one error. -/
theorem lmtp_error_formatted (session : ClientSession_t) (message text : Str)
    (defined : ¬ session.error_count ≥ MAX_ERRORS →
      (formatted_twice message).isSome = true)
    (htext : formatted_twice message = some text)
    (h : session.error_count < 3) :
    lmtp_error session message defined =
      (1, { session with
              tx := session.tx ++ [text],
              error_count := session.error_count + 1 }) := by
  have h3 : ¬ session.error_count ≥ MAX_ERRORS := by
    simp only [MAX_ERRORS]; omega
  simp [lmtp_error, h3, ci_write, htext]

/-- Below the threshold the error guard writes a message without `%` as it is and counts
one error. -/
theorem lmtp_error_continue (session : ClientSession_t) (message : Str)
    (defined : ¬ session.error_count ≥ MAX_ERRORS →
      (formatted_twice message).isSome = true)
    (hplain : '%' ∉ message)
    (h : session.error_count < 3) :
    lmtp_error session message defined =
      (1, { session with
              tx := session.tx ++ [message],
              error_count := session.error_count + 1 }) :=
  lmtp_error_formatted session message message defined
    (formatted_twice_of_plain message hplain) h

/-- At the threshold the error guard writes the closing reply and bails out. -/
theorem lmtp_error_close (session : ClientSession_t) (message : Str)
    (defined : ¬ session.error_count ≥ MAX_ERRORS →
      (formatted_twice message).isSome = true)
    (h : 3 ≤ session.error_count) :
    lmtp_error session message defined =
      (-3, { session with
              tx := session.tx ++ ["500 Too many errors, closing connection.\r\n".toList],
              SessionResult := 2,
              bailed_out := true }) := by
  have h3 : session.error_count ≥ MAX_ERRORS := h
  simp [lmtp_error, h3, ci_write, client_session_bailout]

theorem lmtp_error_sender (session : ClientSession_t) (message : Str)
    (defined : ¬ session.error_count ≥ MAX_ERRORS →
      (formatted_twice message).isSome = true) :
    (lmtp_error session message defined).2.sender = session.sender := by
  unfold lmtp_error
  split_ifs <;> rfl

/-- C5 as stated fails for a message with a conversion: the message is not written
verbatim but after two formatting passes. Below the threshold the message
`500 100%%%% wrong` is written as `500 100% wrong`. -/
theorem lmtp_error_formats_message :
    sender_session.error_count < 3 ∧
    (lmtp_error sender_session "500 100%%%% wrong\r\n".toList (fun _ => by decide)).2.tx
      = ["500 100% wrong\r\n".toList] ∧
    (lmtp_error sender_session "500 100%%%% wrong\r\n".toList (fun _ => by decide)).2.tx
      ≠ ["500 100%%%% wrong\r\n".toList] := by
  decide

/-- C5 (amended): `lmtp_error` is the Error Guard. With three or more errors counted it
writes only the closing reply (not the message), sets `SessionResult` to 2, calls the
bailout, leaves the error count and all other fields alone and returns -3, whatever the
message is. With fewer it writes exactly one text, adds one to the error count, leaves
all other fields alone and returns 1; the text is the message verbatim when the message
holds no `%`, and in general the message after the two formatting passes of the code. -/
theorem lmtp_error_guard (session : ClientSession_t) (message : Str)
    (defined : ¬ session.error_count ≥ MAX_ERRORS →
      (formatted_twice message).isSome = true) :
    (3 ≤ session.error_count →
      lmtp_error session message defined =
        (-3, { session with
                tx := session.tx ++ ["500 Too many errors, closing connection.\r\n".toList],
                SessionResult := 2,
                bailed_out := true })) ∧
    (session.error_count < 3 → '%' ∉ message →
      lmtp_error session message defined =
        (1, { session with
                tx := session.tx ++ [message],
                error_count := session.error_count + 1 })) ∧
    (session.error_count < 3 → ∀ text : Str, formatted_twice message = some text →
      lmtp_error session message defined =
        (1, { session with
                tx := session.tx ++ [text],
                error_count := session.error_count + 1 })) :=
  ⟨lmtp_error_close session message defined,
    fun h hplain => lmtp_error_continue session message defined hplain h,
    fun h text htext => lmtp_error_formatted session message text defined htext h⟩

theorem lmtp_error_guard_witness :
    (formatted_twice "500 Invalid command.\r\n".toList).isSome = true ∧
    lmtp_error flood_session "500 Invalid command.\r\n".toList (fun _ => by decide) =
      (-3, { flood_session with
              tx := ["500 Too many errors, closing connection.\r\n".toList],
              SessionResult := 2,
              bailed_out := true }) ∧
    lmtp_error sender_session "500 Invalid command.\r\n".toList (fun _ => by decide) =
      (1, { sender_session with
              tx := ["500 Invalid command.\r\n".toList],
              error_count := 1 }) :=
  ⟨by decide,
    (lmtp_error_guard flood_session "500 Invalid command.\r\n".toList
      (fun _ => by decide)).1 (by decide),
    (lmtp_error_guard sender_session "500 Invalid command.\r\n".toList
      (fun _ => by decide)).2.1 (by decide) (by decide)⟩

end ErrorGuard

/-! ## The split of a line and the command table -/

section CommandTable

theorem strcasecmp_eq_zero_iff (a b : Str) :
    strcasecmp a b = 0 ↔ a.map tolower = b.map tolower := by
  unfold strcasecmp
  split_ifs <;> simp_all

theorem begins_with_space (l : Str) :
    begins_with " ".toList l = (l.head? == some ' ') := by
  cases l with
  | nil => rfl
  | cons c rest =>
    show ([c].take 1 ++ rest.take 0 == [' ']) = (some c == some ' ')
    by_cases hc : c = ' ' <;> simp [hc]

theorem strstr_space (l : Str) :
    strstr l " ".toList =
      if ' ' ∈ l then some (l.takeWhile (fun c => c != ' ')).length else none := by
  induction l with
  | nil => rfl
  | cons c rest ih =>
    rw [strstr, begins_with_space, ih]
    by_cases hc : c = ' '
    · subst hc; simp
    · have hc2 : ¬ ' ' = c := fun h => hc h.symm
      by_cases hm : ' ' ∈ rest <;> simp [hc, hc2, hm]

theorem take_length_takeWhile {α : Type} (p : α → Bool) (l : List α) :
    l.take (l.takeWhile p).length = l.takeWhile p := by
  induction l with
  | nil => rfl
  | cons c rest ih =>
    by_cases hc : p c <;> simp [List.takeWhile_cons, hc, ih]

theorem drop_length_takeWhile {α : Type} (p : α → Bool) (l : List α) :
    l.drop (l.takeWhile p).length = l.dropWhile p := by
  induction l with
  | nil => rfl
  | cons c rest ih =>
    by_cases hc : p c <;> simp [List.takeWhile_cons, List.dropWhile_cons, hc, ih]

theorem dropWhile_eq_nil_of_not_mem (l : Str) (hm : ' ' ∉ l) :
    l.dropWhile (fun c => c != ' ') = [] := by
  rw [List.dropWhile_eq_nil_iff]
  intro c hc
  simp only [bne_iff_ne, ne_eq]
  rintro rfl
  exact hm hc

/-- The tokenizer's verb is the text before the first space. -/
theorem split_command_eq (line : Str) : split_command line = spec_verb line := by
  unfold split_command spec_verb
  rw [strstr_space]
  by_cases hm : ' ' ∈ line
  · simp only [hm, ↓reduceIte]
    exact take_length_takeWhile _ _
  · simp only [hm, ↓reduceIte]
    have h := drop_length_takeWhile (fun c => c != ' ') line
    rw [dropWhile_eq_nil_of_not_mem line hm] at h
    have h2 := take_length_takeWhile (fun c => c != ' ') line
    rw [← h2]
    exact (List.take_of_length_le (List.drop_eq_nil_iff.mp h)).symm

/-- The tokenizer's argument is the text after the first space, none when that is
absent or empty. -/
theorem split_value_eq (line : Str) : split_value line = spec_remainder line := by
  unfold split_value spec_remainder
  rw [strstr_space]
  by_cases hm : ' ' ∈ line
  · simp only [hm, ↓reduceIte]
    rw [← List.drop_drop, drop_length_takeWhile]
    cases hd : line.dropWhile (fun c => c != ' ') with
    | nil => simp
    | cons c rest => cases rest <;> simp
  · simp only [hm, ↓reduceIte]
    rw [dropWhile_eq_nil_of_not_mem line hm]

/-- The scan of the command table stops at the first name that equals the verb up to
case, and at the end of the scanned range when there is none. -/
theorem scan_commands_first (command : Str) :
    ∀ n k : Nat,
      k ≤ scan_commands command n k ∧ scan_commands command n k ≤ k + n ∧
      (∀ j, k ≤ j → j < scan_commands command n k →
        strcasecmp command (commands.getD j []) ≠ 0) ∧
      (scan_commands command n k < k + n →
        strcasecmp command (commands.getD (scan_commands command n k) []) = 0) := by
  intro n
  induction n with
  | zero =>
    intro k
    refine ⟨le_refl _, le_refl _, ?_, ?_⟩
    · intro j h1 h2; simp only [scan_commands] at h2; omega
    · intro h; simp only [scan_commands] at h; omega
  | succ n ih =>
    intro k
    by_cases hk : strcasecmp command (commands.getD k []) = 0
    · have e : scan_commands command (n + 1) k = k := by
        rw [scan_commands, if_pos hk]
      rw [e]
      exact ⟨le_refl _, by omega, fun j h1 h2 => by omega, fun _ => hk⟩
    · have e : scan_commands command (n + 1) k = scan_commands command n (k + 1) := by
        rw [scan_commands, if_neg hk]
      rw [e]
      obtain ⟨h1, h2, h3, h4⟩ := ih (k + 1)
      refine ⟨by omega, by omega, ?_, fun h => h4 (by omega)⟩
      intro j hj1 hj2
      by_cases hjk : j = k
      · rw [hjk]; exact hk
      · exact h3 j (by omega) hj2

/-- No two names of the command table agree up to case. -/
theorem commands_distinct :
    ∀ i < 10, ∀ j < 10,
      (commands.getD i []).map tolower = (commands.getD j []).map tolower → i = j := by
  decide

/-- The scan finds the position of the name the verb equals up to case. -/
theorem scan_commands_eq (command : Str) (i : Nat) (hi : i < 10)
    (h : strcasecmp command (commands.getD i []) = 0) :
    scan_commands command (LMTP_END - LMTP_STRT) LMTP_STRT = i := by
  obtain ⟨_, h2, h3, h4⟩ := scan_commands_first command (LMTP_END - LMTP_STRT) LMTP_STRT
  have e : LMTP_STRT + (LMTP_END - LMTP_STRT) = 10 := by decide
  rw [e] at h2 h4
  have hlt : scan_commands command (LMTP_END - LMTP_STRT) LMTP_STRT < 10 := by
    by_contra hge
    exact h3 i (Nat.zero_le _) (by omega) h
  have hm := h4 hlt
  rw [strcasecmp_eq_zero_iff] at h hm
  exact commands_distinct _ hlt i hi (hm.symm.trans h)

/-- The scan runs to the end of the table when the verb equals none of its names. -/
theorem scan_commands_end (command : Str)
    (h : ∀ name ∈ commands, strcasecmp command name ≠ 0) :
    scan_commands command (LMTP_END - LMTP_STRT) LMTP_STRT = LMTP_END := by
  obtain ⟨_, h2, _, h4⟩ := scan_commands_first command (LMTP_END - LMTP_STRT) LMTP_STRT
  have e : LMTP_STRT + (LMTP_END - LMTP_STRT) = 10 := by decide
  rw [e] at h2 h4
  by_contra hne
  have hlt : scan_commands command (LMTP_END - LMTP_STRT) LMTP_STRT < 10 := by
    have : LMTP_END = 10 := rfl
    omega
  refine h _ ?_ (h4 hlt)
  rw [List.getD_eq_getElem _ _ (by simpa [commands] using hlt)]
  exact List.getElem_mem _

/-- The spec's acceptance rule in terms of positions in the command table. -/
theorem spec_accepts_iff (line : Str) :
    spec_accepts line = true ↔
      ∃ i, i < 10 ∧ strcasecmp (spec_verb line) (commands.getD i []) = 0 ∧
        (spec_remainder line ≠ none ∨
          i = LMTP_LHLO ∨ i = LMTP_DATA ∨ i = LMTP_RSET ∨ i = LMTP_QUIT ∨ i = LMTP_NOOP ∨
          i = LMTP_HELP) := by
  have hpos : ∀ i, i < 10 →
      (no_argument_verbs.contains (commands.getD i []) = true ↔
        (i = LMTP_LHLO ∨ i = LMTP_DATA ∨ i = LMTP_RSET ∨ i = LMTP_QUIT ∨ i = LMTP_NOOP ∨
          i = LMTP_HELP)) := by
    decide
  have hsome : (spec_remainder line).isSome = true ↔ spec_remainder line ≠ none := by
    cases spec_remainder line <;> simp
  unfold spec_accepts
  rw [List.any_eq_true]
  constructor
  · rintro ⟨name, hmem, hname⟩
    obtain ⟨i, hi, rfl⟩ := List.getElem_of_mem hmem
    have hi10 : i < 10 := by simpa [commands] using hi
    rw [Bool.and_eq_true, Bool.or_eq_true, decide_eq_true_eq,
      ← List.getD_eq_getElem _ [] hi, hpos i hi10, hsome] at hname
    exact ⟨i, hi10, hname.1, hname.2⟩
  · rintro ⟨i, hi10, h1, h2⟩
    have hi : i < commands.length := by simpa [commands] using hi10
    refine ⟨commands.getD i [], ?_, ?_⟩
    · rw [List.getD_eq_getElem _ [] hi]; exact List.getElem_mem _
    · rw [Bool.and_eq_true, Bool.or_eq_true, decide_eq_true_eq, hpos i hi10, hsome]
      exact ⟨h1, h2⟩

end CommandTable

/-! ## The tokenizer, case by case -/

section Tokenizer

/-- An unknown verb: the tokenizer hands the line to the error guard. -/
theorem tokenizer_unknown (session : ClientSession_t) (buffer : Str)
    (hidle : session.command_type = 0)
    (h : scan_commands (split_command (strip_crlf buffer)) (LMTP_END - LMTP_STRT) LMTP_STRT
      = LMTP_END) :
    lmtp_tokenizer session buffer =
      lmtp_error { session with parser_state := FALSE } "500 Invalid command.\r\n".toList
        (fun _ => by decide) := by
  simp only [lmtp_tokenizer, hidle, h, ↓reduceIte]

/-- A known verb that needs an argument and has none: the tokenizer hands the line to
the error guard. -/
theorem tokenizer_no_argument (session : ClientSession_t) (buffer : Str) (i : Nat)
    (hidle : session.command_type = 0)
    (h : scan_commands (split_command (strip_crlf buffer)) (LMTP_END - LMTP_STRT) LMTP_STRT = i)
    (hi : i = LMTP_MAIL ∨ i = LMTP_VRFY ∨ i = LMTP_EXPN ∨ i = LMTP_RCPT)
    (hv : split_value (strip_crlf buffer) = none) :
    lmtp_tokenizer session buffer =
      lmtp_error { session with parser_state := FALSE }
        "500 This command requires an argument.\r\n".toList (fun _ => by decide) := by
  unfold lmtp_tokenizer
  simp only [hidle, ↓reduceIte, h, hv]
  rcases hi with e | e | e | e <;> subst e <;> rw [if_neg (by decide), if_pos (by decide)]

/-- A known verb with its argument, or one that needs none: the tokenizer records the
command and the argument and goes on to its DATA part. -/
theorem tokenizer_known (session : ClientSession_t) (buffer : Str) (i : Nat)
    (hidle : session.command_type = 0)
    (h : scan_commands (split_command (strip_crlf buffer)) (LMTP_END - LMTP_STRT) LMTP_STRT = i)
    (hi : i < 10)
    (hv : split_value (strip_crlf buffer) ≠ none ∨
      i = LMTP_LHLO ∨ i = LMTP_DATA ∨ i = LMTP_RSET ∨ i = LMTP_QUIT ∨ i = LMTP_NOOP ∨
      i = LMTP_HELP) :
    lmtp_tokenizer session buffer =
      tokenizer_data
        { session with
          parser_state := FALSE, command_type := i,
          args := session.args ++ (split_value (strip_crlf buffer)).toList }
        buffer true := by
  have hne : i ≠ LMTP_END := by simp only [LMTP_END]; omega
  have hc : ¬ (split_value (strip_crlf buffer) = none ∧
      ¬ (i = LMTP_LHLO ∨ i = LMTP_DATA ∨ i = LMTP_RSET ∨ i = LMTP_QUIT ∨ i = LMTP_NOOP ∨
        i = LMTP_HELP)) := by
    rintro ⟨h1, h2⟩
    rcases hv with hv | hv
    · exact hv h1
    · exact h2 hv
  simp only [lmtp_tokenizer, hidle, h, ↓reduceIte, hne, hc]
  cases split_value (strip_crlf buffer) <;> simp

/-- A command the tokenizer has recorded leaves the error count alone, whatever its DATA
part replies. -/
theorem tokenizer_data_frame (session : ClientSession_t) (buffer : Str) (command : Bool) :
    (tokenizer_data session buffer command).2.command_type = session.command_type ∧
    (tokenizer_data session buffer command).2.args = session.args ∧
    (tokenizer_data session buffer command).2.error_count = session.error_count := by
  unfold tokenizer_data
  split_ifs <;> simp [ci_write]

end Tokenizer

/-! ## The dispatcher, case by case -/

section Dispatch

theorem lmtp_of_quit (env : Collaborators) (session : ClientSession_t)
    (h : session.command_type = LMTP_QUIT) :
    lmtp env session =
      some (1, { ci_write session ("221 ".toList ++ session.hostname ++ " BYE\r\n".toList) with
        state := IMAPCS_LOGOUT }) := by
  unfold lmtp
  rw [if_pos h]

theorem lmtp_of_noop (env : Collaborators) (session : ClientSession_t)
    (h : session.command_type = LMTP_NOOP) :
    lmtp env session =
      some (1, ci_write session "250 OK\r\n".toList) := by
  unfold lmtp
  rw [if_neg (by rw [h]; decide), if_pos h]

theorem lmtp_of_rset (env : Collaborators) (session : ClientSession_t)
    (h : session.command_type = LMTP_RSET) :
    lmtp env session =
      some (1, client_session_reset (ci_write session "250 OK\r\n".toList)) := by
  unfold lmtp
  rw [if_neg (by rw [h]; decide), if_neg (by rw [h]; decide), if_pos h]

theorem lmtp_of_lhlo (env : Collaborators) (session : ClientSession_t)
    (h : session.command_type = LMTP_LHLO) :
    lmtp env session =
      some (1, { client_session_reset (ci_write session ("250-".toList ++ session.hostname
        ++ "\r\n250-PIPELINING\r\n250-ENHANCEDSTATUSCODES\r\n250 SIZE\r\n".toList)) with
        state := IMAPCS_AUTHENTICATED }) := by
  unfold lmtp
  rw [if_neg (by rw [h]; decide), if_neg (by rw [h]; decide), if_neg (by rw [h]; decide), if_pos h]

theorem lmtp_of_help (env : Collaborators) (session : ClientSession_t)
    (h : session.command_type = LMTP_HELP) :
    lmtp env session =
      lmtp_help env session := by
  unfold lmtp
  rw [if_neg (by rw [h]; decide), if_neg (by rw [h]; decide), if_neg (by rw [h]; decide), if_neg (by rw [h]; decide), if_pos h]

theorem lmtp_of_vrfy (env : Collaborators) (session : ClientSession_t)
    (h : session.command_type = LMTP_VRFY) :
    lmtp env session =
      some (1, ci_write session "502 Command not implemented\r\n".toList) := by
  unfold lmtp
  rw [if_neg (by rw [h]; decide), if_neg (by rw [h]; decide), if_neg (by rw [h]; decide), if_neg (by rw [h]; decide), if_neg (by rw [h]; decide), if_pos h]

theorem lmtp_of_expn (env : Collaborators) (session : ClientSession_t)
    (h : session.command_type = LMTP_EXPN) :
    lmtp env session =
      some (1, ci_write session "502 Command not implemented\r\n".toList) := by
  unfold lmtp
  rw [if_neg (by rw [h]; decide), if_neg (by rw [h]; decide), if_neg (by rw [h]; decide), if_neg (by rw [h]; decide), if_neg (by rw [h]; decide), if_neg (by rw [h]; decide), if_pos h]

theorem lmtp_of_mail (env : Collaborators) (session : ClientSession_t)
    (h : session.command_type = LMTP_MAIL) :
    lmtp env session =
      lmtp_mail session := by
  unfold lmtp
  rw [if_neg (by rw [h]; decide), if_neg (by rw [h]; decide), if_neg (by rw [h]; decide), if_neg (by rw [h]; decide), if_neg (by rw [h]; decide), if_neg (by rw [h]; decide), if_neg (by rw [h]; decide), if_pos h]

theorem lmtp_of_rcpt (env : Collaborators) (session : ClientSession_t)
    (h : session.command_type = LMTP_RCPT) :
    lmtp env session =
      lmtp_rcpt env session := by
  unfold lmtp
  rw [if_neg (by rw [h]; decide), if_neg (by rw [h]; decide), if_neg (by rw [h]; decide), if_neg (by rw [h]; decide), if_neg (by rw [h]; decide), if_neg (by rw [h]; decide), if_neg (by rw [h]; decide), if_neg (by rw [h]; decide), if_pos h]

theorem lmtp_of_data (env : Collaborators) (session : ClientSession_t)
    (h : session.command_type = LMTP_DATA) :
    lmtp env session =
      lmtp_data env session := by
  unfold lmtp
  rw [if_neg (by rw [h]; decide), if_neg (by rw [h]; decide), if_neg (by rw [h]; decide), if_neg (by rw [h]; decide), if_neg (by rw [h]; decide), if_neg (by rw [h]; decide), if_neg (by rw [h]; decide), if_neg (by rw [h]; decide), if_neg (by rw [h]; decide), if_pos h]

theorem lmtp_of_other (env : Collaborators) (session : ClientSession_t)
    (h : LMTP_END ≤ session.command_type) :
    lmtp env session =
      some (lmtp_error session "500 What are you trying to say here?\r\n".toList
        (fun _ => by decide)) := by
  have h10 : 10 ≤ session.command_type := h
  unfold lmtp
  rw [if_neg (by simp only [LMTP_QUIT]; omega), if_neg (by simp only [LMTP_NOOP]; omega),
    if_neg (by simp only [LMTP_RSET]; omega), if_neg (by simp only [LMTP_LHLO]; omega),
    if_neg (by simp only [LMTP_HELP]; omega), if_neg (by simp only [LMTP_VRFY]; omega),
    if_neg (by simp only [LMTP_EXPN]; omega), if_neg (by simp only [LMTP_MAIL]; omega),
    if_neg (by simp only [LMTP_RCPT]; omega), if_neg (by simp only [LMTP_DATA]; omega)]

/-- Every command number is one of the ten of the table or lies past its end. -/
theorem command_type_cases (c : Nat) :
    c = LMTP_LHLO ∨ c = LMTP_QUIT ∨ c = LMTP_RSET ∨ c = LMTP_DATA ∨ c = LMTP_MAIL ∨
    c = LMTP_VRFY ∨ c = LMTP_EXPN ∨ c = LMTP_HELP ∨ c = LMTP_NOOP ∨ c = LMTP_RCPT ∨
    LMTP_END ≤ c := by
  simp only [LMTP_LHLO, LMTP_QUIT, LMTP_RSET, LMTP_DATA, LMTP_MAIL, LMTP_VRFY, LMTP_EXPN,
    LMTP_HELP, LMTP_NOOP, LMTP_RCPT, LMTP_END]
  omega

/-- The loop of the DATA case writes one reply for each node in turn, moves the recipient
pointer and touches nothing else. -/
theorem rcpt_walk_eq (env : Collaborators) :
    ∀ (next prev : List deliver_to_user_t) (session : ClientSession_t),
      rcpt_walk env session prev next =
        { session with
          tx := session.tx ++ next.map (rcpt_reply env),
          rcpt := rcpt_walk_end prev next }
  | [], _, _ => by simp [rcpt_walk, rcpt_walk_end]
  | [_], _, _ => by simp [rcpt_walk, rcpt_walk_end, ci_write]
  | d :: e :: rest, prev, session => by
    rw [rcpt_walk, rcpt_walk_eq env (e :: rest) (d :: prev)]
    simp [ci_write, rcpt_walk_end]

theorem lmtp_mail_sender_le_one (session : ClientSession_t)
    (r : Int × ClientSession_t) (h : session.sender.length ≤ 1)
    (hr : lmtp_mail session = some r) : r.2.sender.length ≤ 1 := by
  unfold lmtp_mail at hr
  split_ifs at hr with h1 h2
  · cases hr; exact h
  · cases hr; exact h
  · have h0 : session.sender = [] := by
      cases hs : session.sender with
      | nil => rfl
      | cons a l => rw [hs] at h2; simp at h2
    split at hr
    · cases hr; exact h
    · simp only at hr
      split at hr
      · cases hr; exact h
      · split_ifs at hr <;> cases hr <;> simp [ci_write, h0]

theorem lmtp_rcpt_sender (env : Collaborators) (session : ClientSession_t)
    (r : Int × ClientSession_t) (hr : lmtp_rcpt env session = some r) :
    r.2.sender = session.sender := by
  unfold lmtp_rcpt at hr
  split_ifs at hr with h1
  · cases hr; rfl
  · split at hr
    · cases hr; rfl
    · simp only at hr
      split_ifs at hr with h2
      · cases hr; rfl
      · split at hr
        · cases hr; rfl
        · split_ifs at hr <;> cases hr <;> rfl

theorem lmtp_data_sender (env : Collaborators) (session : ClientSession_t)
    (r : Int × ClientSession_t) (hr : lmtp_data env session = some r) :
    r.2.sender = session.sender := by
  unfold lmtp_data at hr
  split at hr
  · cases hr
  · simp only at hr
    split_ifs at hr
    · cases hr; rfl
    · split at hr
      · cases hr
      · cases hr; simp [rcpt_walk_eq]

theorem lmtp_help_sender (env : Collaborators) (session : ClientSession_t)
    (r : Int × ClientSession_t) (hr : lmtp_help env session = some r) :
    r.2.sender = session.sender := by
  unfold lmtp_help at hr
  simp only at hr
  split_ifs at hr <;> cases hr <;> rfl

/-- No command gives a session a second sender. -/
theorem lmtp_sender_le_one (env : Collaborators) (session : ClientSession_t)
    (r : Int × ClientSession_t) (h : session.sender.length ≤ 1)
    (hr : lmtp env session = some r) : r.2.sender.length ≤ 1 := by
  rcases command_type_cases session.command_type with
    c | c | c | c | c | c | c | c | c | c | c
  · rw [lmtp_of_lhlo env session c] at hr
    obtain rfl := Option.some.inj hr
    simp [client_session_reset]
  · rw [lmtp_of_quit env session c] at hr
    obtain rfl := Option.some.inj hr
    exact h
  · rw [lmtp_of_rset env session c] at hr
    obtain rfl := Option.some.inj hr
    simp [client_session_reset]
  · rw [lmtp_of_data env session c] at hr
    rw [lmtp_data_sender env session r hr]; exact h
  · rw [lmtp_of_mail env session c] at hr
    exact lmtp_mail_sender_le_one session r h hr
  · rw [lmtp_of_vrfy env session c] at hr
    obtain rfl := Option.some.inj hr
    exact h
  · rw [lmtp_of_expn env session c] at hr
    obtain rfl := Option.some.inj hr
    exact h
  · rw [lmtp_of_help env session c] at hr
    rw [lmtp_help_sender env session r hr]; exact h
  · rw [lmtp_of_noop env session c] at hr
    obtain rfl := Option.some.inj hr
    exact h
  · rw [lmtp_of_rcpt env session c] at hr
    rw [lmtp_rcpt_sender env session r hr]; exact h
  · rw [lmtp_of_other env session c] at hr
    obtain rfl := Option.some.inj hr
    rw [lmtp_error_sender]; exact h

end Dispatch

/-! ## DATA preconditions in the tokenizer (C1) and in the read handler (C2) -/

section DataPreconditions

/-- C1: with no command in progress, a line whose verb is DATA (up to case) makes
`lmtp_tokenizer` write exactly one reply, chosen by the checks state, recipients, sender
in this order: 550 when the state is not Authenticated, otherwise 503 when there is no
recipient, otherwise 554 when there is no sender, otherwise 354 with result 0 (more
input needed). The buffer `rbuff` is the same afterwards in all four cases. -/
theorem tokenizer_data_preconditions (session : ClientSession_t) (buffer : Str)
    (hidle : session.command_type = 0)
    (hverb : strcasecmp (split_command (strip_crlf buffer)) "DATA".toList = 0) :
    (lmtp_tokenizer session buffer).2.rbuff = session.rbuff ∧
    (session.state ≠ ClientState.Authenticated →
      (lmtp_tokenizer session buffer).2.tx
        = session.tx ++ ["550 Command out of sequence\r\n".toList]) ∧
    (session.state = ClientState.Authenticated → g_list_length session.rcpt = 0 →
      (lmtp_tokenizer session buffer).2.tx
        = session.tx ++ ["503 No valid recipients\r\n".toList]) ∧
    (session.state = ClientState.Authenticated → g_list_length session.rcpt ≠ 0 →
      session.sender = [] →
      (lmtp_tokenizer session buffer).2.tx
        = session.tx ++ ["554 No valid sender.\r\n".toList]) ∧
    (session.state = ClientState.Authenticated → g_list_length session.rcpt ≠ 0 →
      session.sender ≠ [] →
      (lmtp_tokenizer session buffer).2.tx
        = session.tx ++ ["354 Start mail input; end with <CRLF>.<CRLF>\r\n".toList] ∧
      (lmtp_tokenizer session buffer).1 = 0) := by
  have hscan : scan_commands (split_command (strip_crlf buffer)) (LMTP_END - LMTP_STRT)
      LMTP_STRT = LMTP_DATA := scan_commands_eq _ 3 (by decide) hverb
  have hne : LMTP_DATA ≠ LMTP_END := by decide
  have hsl : ∀ l : List Str, l.length < 1 ↔ l = [] := by
    intro l; cases l <;> simp
  cases hval : split_value (strip_crlf buffer) <;>
    by_cases hst : session.state = ClientState.Authenticated <;>
    by_cases hr : g_list_length session.rcpt = 0 <;>
    by_cases hs : session.sender = [] <;>
    simp [lmtp_tokenizer, hidle, hscan, hne, hval, tokenizer_data, ci_write,
      IMAPCS_AUTHENTICATED, hst, hr, hs, hsl, TRUE, FALSE, Nat.lt_one_iff]

theorem tokenizer_data_preconditions_witness :
    (ready_session.command_type = 0 ∧
      strcasecmp (split_command (strip_crlf "data\r\n".toList)) "DATA".toList = 0) ∧
    (lmtp_tokenizer ready_session "data\r\n".toList).2.rbuff = ready_session.rbuff ∧
    (lmtp_tokenizer ready_session "data\r\n".toList).2.tx
      = ready_session.tx ++ ["354 Start mail input; end with <CRLF>.<CRLF>\r\n".toList] ∧
    (lmtp_tokenizer ready_session "data\r\n".toList).1 = 0 :=
  ⟨⟨by decide, by decide⟩,
    (tokenizer_data_preconditions ready_session "data\r\n".toList (by decide) (by decide)).1,
    (tokenizer_data_preconditions ready_session "data\r\n".toList (by decide)
      (by decide)).2.2.2.2 (by decide) (by decide) (by decide)⟩

/-- C2 fails on the code: a DATA line that is rejected for want of recipients still
reaches the store. After LHLO and MAIL FROM:<a>, the line DATA gets the reply 503 from
the tokenizer, whose result 1 makes the read handler run the DATA case of `lmtp`: the
store is called with an empty message, Return-Path a and no recipients; when the store
fails a second reply, 430, follows the rejection. With a recipient and no sender the
rejected DATA makes `lmtp` read the Return-Path through the NULL sender list. -/
theorem rejected_data_reaches_store :
    (lmtp_cb_read deliverable_env (client_session_new "mx".toList)
        ["LHLO\r\n".toList, "MAIL FROM:<a>\r\n".toList, "DATA\r\n".toList]).map
      (fun s => (s.tx, s.inserted))
      = some ([banner_mx, "250 Sender <a> OK\r\n".toList, "503 No valid recipients\r\n".toList],
          [([], "a".toList, GList.NULL)]) ∧
    (lmtp_cb_read failing_store_env (client_session_new "mx".toList)
        ["LHLO\r\n".toList, "MAIL FROM:<a>\r\n".toList, "DATA\r\n".toList]).map
      (fun s => s.tx)
      = some [banner_mx, "250 Sender <a> OK\r\n".toList, "503 No valid recipients\r\n".toList,
          "430 Message not received\r\n".toList] ∧
    lmtp_cb_read deliverable_env (client_session_new "mx".toList)
        ["LHLO\r\n".toList, "RCPT TO:<b>\r\n".toList, "DATA\r\n".toList] = none := by
  decide

end DataPreconditions

/-! ## Replies after DATA (C3) and the round trip (C4) -/

section DataReplies

/-- C4 fails on the code for CRLF-terminated lines: after LHLO, MAIL FROM:<a>,
RCPT TO:<b>, DATA and the body line hello, the end marker `.` followed by CRLF is not
recognised (the tokenizer compares the first two characters with a dot and LF): no reply
follows the 354, the store is not called, DATA stays in progress and the marker is in the
buffer. The same dialogue with lines that end in a bare LF completes: one reply
`215 Recipient <b> OK` and one store call with the body, sender a and recipient b. -/
theorem crlf_end_marker_not_recognised :
    (lmtp_cb_read deliverable_env (client_session_new "mx".toList)
        ["LHLO\r\n".toList, "MAIL FROM:<a>\r\n".toList, "RCPT TO:<b>\r\n".toList,
         "DATA\r\n".toList, "hello\r\n".toList, ".\r\n".toList]).map
      (fun s => (s.tx, s.inserted, s.command_type, s.rbuff))
      = some ([banner_mx, "250 Sender <a> OK\r\n".toList, "250 Recipient <b> OK\r\n".toList,
            "354 Start mail input; end with <CRLF>.<CRLF>\r\n".toList],
          [], LMTP_DATA, "hello\r\n.\r\n".toList) ∧
    (lmtp_cb_read deliverable_env (client_session_new "mx".toList)
        ["LHLO\n".toList, "MAIL FROM:<a>\n".toList, "RCPT TO:<b>\n".toList,
         "DATA\n".toList, "hello\n".toList, ".\n".toList]).map
      (fun s => (s.tx, s.inserted, s.command_type, s.rbuff))
      = some ([banner_mx, "250 Sender <a> OK\r\n".toList, "250 Recipient <b> OK\r\n".toList,
            "354 Start mail input; end with <CRLF>.<CRLF>\r\n".toList,
            "215 Recipient <b> OK\r\n".toList],
          [("hello\n".toList, "a".toList,
            { prev := [],
              next := [{ address := "b".toList,
                         dsn := { class_ := 2, subject := 1, detail := 5 } }] })],
          0, []) :=
  ⟨rfl, rfl⟩

end DataReplies

/-! ## Unknown verbs (C6), the flood closure (C7), the acceptance rule (C8) -/

section Rejections

/-- C6 as stated fails at the error threshold: a session that has counted three errors
and receives the unknown verb FOO keeps its error count (the reply is the closing one). -/
theorem unknown_verb_at_threshold :
    flood_session.command_type = 0 ∧
    (∀ name ∈ commands, strcasecmp (spec_verb (strip_crlf "FOO\r\n".toList)) name ≠ 0) ∧
    (lmtp_tokenizer flood_session "FOO\r\n".toList).2.error_count
      ≠ flood_session.error_count + 1 ∧
    (lmtp_tokenizer flood_session "FOO\r\n".toList).2.tx
      = ["500 Too many errors, closing connection.\r\n".toList] := by
  decide

/-- C6 (amended): with no command in progress and fewer than three errors counted, a line
whose verb (the text before the first space of the stripped line) equals none of the ten
command names up to case makes `lmtp_tokenizer` return 1, write the single reply
`500 Invalid command.` and add exactly one to the error count; nothing else changes but
the parser flag, which is cleared. -/
theorem unknown_verb_rejected (session : ClientSession_t) (buffer : Str)
    (hidle : session.command_type = 0)
    (herr : session.error_count < 3)
    (hverb : ∀ name ∈ commands, strcasecmp (spec_verb (strip_crlf buffer)) name ≠ 0) :
    lmtp_tokenizer session buffer =
      (1, { session with
              parser_state := FALSE,
              tx := session.tx ++ ["500 Invalid command.\r\n".toList],
              error_count := session.error_count + 1 }) := by
  rw [← split_command_eq] at hverb
  rw [tokenizer_unknown session buffer hidle (scan_commands_end _ hverb)]
  exact lmtp_error_continue { session with parser_state := FALSE }
    "500 Invalid command.\r\n".toList _ (by decide) herr

theorem unknown_verb_rejected_witness :
    (client_session_new "mx".toList).command_type = 0 ∧
    (client_session_new "mx".toList).error_count < 3 ∧
    lmtp_tokenizer (client_session_new "mx".toList) "FOO bar\r\n".toList =
      (1, { client_session_new "mx".toList with
              tx := ["500 Invalid command.\r\n".toList], error_count := 1 }) :=
  ⟨by decide, by decide,
    unknown_verb_rejected (client_session_new "mx".toList) "FOO bar\r\n".toList
      (by decide) (by decide) (by decide)⟩

/-- C7 fails on the code: the closing line is dispatched. From a fresh session three
lines FOO leave three errors counted and the connection open; the fourth FOO gets the
closing reply from the error guard, whose result -3 the tokenizer returns and the read
handler takes for a complete command: `lmtp` runs with command number 0, writes the
LHLO banner after the closing reply and resets the session. A line after that is not
processed. -/
theorem closing_line_is_dispatched :
    (lmtp_cb_read deliverable_env (client_session_new "mx".toList)
        ["FOO\r\n".toList, "FOO\r\n".toList, "FOO\r\n".toList]).map
      (fun s => (s.error_count, s.bailed_out, s.tx.length))
      = some (3, false, 6) ∧
    (lmtp_cb_read deliverable_env (client_session_new "mx".toList)
        ["FOO\r\n".toList, "FOO\r\n".toList, "FOO\r\n".toList, "FOO\r\n".toList]).map
      (fun s => (s.error_count, s.bailed_out, s.tx.drop 6))
      = some (3, true,
          ["500 Too many errors, closing connection.\r\n".toList, banner_mx]) ∧
    (lmtp_cb_read_line deliverable_env
        { client_session_new "mx".toList with
          error_count := 3, sender := ["a".toList] } "FOO\r\n".toList).map
      (fun s => (s.state, s.sender, s.tx))
      = some (ClientState.Authenticated, [],
          ["500 Too many errors, closing connection.\r\n".toList, banner_mx]) ∧
    lmtp_cb_read deliverable_env (client_session_new "mx".toList)
        ["FOO\r\n".toList, "FOO\r\n".toList, "FOO\r\n".toList, "FOO\r\n".toList,
         "NOOP\r\n".toList]
      = lmtp_cb_read deliverable_env (client_session_new "mx".toList)
        ["FOO\r\n".toList, "FOO\r\n".toList, "FOO\r\n".toList, "FOO\r\n".toList] := by
  decide

/-- C8: with no command in progress and fewer than three errors counted, for every line:
(1) `lmtp_tokenizer` splits the stripped line at its first space, the verb being the text
before it and the argument the text after it, none when that is absent or empty; (2) when
the verb equals one of the ten command names up to case and an argument is present or
the verb is one of LHLO, DATA, RSET, QUIT, NOOP, HELP, the tokenizer records the position
of that name as the command in progress, appends the whole remainder (if any) as one
pending argument and counts no error; (3) in every other case it records no command
and no argument, counts one error and writes one of the two rejections; (4) MAIL, RCPT, VRFY or EXPN without an argument
gets the reply `500 This command requires an argument.` from the error guard. -/
theorem tokenizer_accepts_per_table (session : ClientSession_t) (buffer : Str)
    (hidle : session.command_type = 0)
    (herr : session.error_count < 3) :
    (split_command (strip_crlf buffer) = spec_verb (strip_crlf buffer) ∧
      split_value (strip_crlf buffer) = spec_remainder (strip_crlf buffer)) ∧
    (spec_accepts (strip_crlf buffer) = true →
      ∃ i, i < 10 ∧
        strcasecmp (spec_verb (strip_crlf buffer)) (commands.getD i []) = 0 ∧
        (lmtp_tokenizer session buffer).2.command_type = i ∧
        (lmtp_tokenizer session buffer).2.args
          = session.args ++ (spec_remainder (strip_crlf buffer)).toList ∧
        (lmtp_tokenizer session buffer).2.error_count = session.error_count) ∧
    (spec_accepts (strip_crlf buffer) = false →
      (lmtp_tokenizer session buffer).1 = 1 ∧
      (lmtp_tokenizer session buffer).2.command_type = 0 ∧
      (lmtp_tokenizer session buffer).2.args = session.args ∧
      (lmtp_tokenizer session buffer).2.error_count = session.error_count + 1 ∧
      ((lmtp_tokenizer session buffer).2.tx
          = session.tx ++ ["500 Invalid command.\r\n".toList] ∨
        (lmtp_tokenizer session buffer).2.tx
          = session.tx ++ ["500 This command requires an argument.\r\n".toList])) ∧
    (spec_remainder (strip_crlf buffer) = none →
      (strcasecmp (spec_verb (strip_crlf buffer)) "MAIL".toList = 0 ∨
        strcasecmp (spec_verb (strip_crlf buffer)) "RCPT".toList = 0 ∨
        strcasecmp (spec_verb (strip_crlf buffer)) "VRFY".toList = 0 ∨
        strcasecmp (spec_verb (strip_crlf buffer)) "EXPN".toList = 0) →
      lmtp_tokenizer session buffer =
        (1, { session with
                parser_state := FALSE,
                tx := session.tx ++ ["500 This command requires an argument.\r\n".toList],
                error_count := session.error_count + 1 })) := by
  have hf : ({ session with parser_state := FALSE } : ClientSession_t).error_count < 3 := herr
  refine ⟨⟨split_command_eq _, split_value_eq _⟩, ?_, ?_, ?_⟩
  · intro hacc
    obtain ⟨i, hi, hm, harg⟩ := (spec_accepts_iff _).mp hacc
    refine ⟨i, hi, hm, ?_⟩
    rw [← split_command_eq] at hm
    rw [← split_value_eq] at harg ⊢
    rw [tokenizer_known session buffer i hidle (scan_commands_eq _ i hi hm) hi harg]
    obtain ⟨h1, h2, h3⟩ := tokenizer_data_frame
      { session with
        parser_state := FALSE, command_type := i,
        args := session.args ++ (split_value (strip_crlf buffer)).toList } buffer true
    exact ⟨h1, h2, h3⟩
  · intro hrej
    have hno : ¬ ∃ i, i < 10 ∧
        strcasecmp (spec_verb (strip_crlf buffer)) (commands.getD i []) = 0 ∧
        (spec_remainder (strip_crlf buffer) ≠ none ∨
          i = LMTP_LHLO ∨ i = LMTP_DATA ∨ i = LMTP_RSET ∨ i = LMTP_QUIT ∨ i = LMTP_NOOP ∨
          i = LMTP_HELP) := by
      rw [← spec_accepts_iff, hrej]; simp
    rw [← split_command_eq, ← split_value_eq] at hno
    obtain ⟨_, h2, _, h4⟩ := scan_commands_first (split_command (strip_crlf buffer))
      (LMTP_END - LMTP_STRT) LMTP_STRT
    have e : LMTP_STRT + (LMTP_END - LMTP_STRT) = 10 := by decide
    rw [e] at h2 h4
    rcases Nat.lt_or_ge
      (scan_commands (split_command (strip_crlf buffer)) (LMTP_END - LMTP_STRT) LMTP_STRT)
      10 with hlt | hge
    · have hm := h4 hlt
      have hv : split_value (strip_crlf buffer) = none := by
        by_contra hv
        exact hno ⟨_, hlt, hm, Or.inl hv⟩
      have hi : ∀ j, scan_commands (split_command (strip_crlf buffer))
          (LMTP_END - LMTP_STRT) LMTP_STRT = j →
          j = LMTP_MAIL ∨ j = LMTP_VRFY ∨ j = LMTP_EXPN ∨ j = LMTP_RCPT := by
        intro j hj
        have hj10 : j < 10 := hj ▸ hlt
        have hjn : ¬ (j = LMTP_LHLO ∨ j = LMTP_DATA ∨ j = LMTP_RSET ∨ j = LMTP_QUIT ∨
            j = LMTP_NOOP ∨ j = LMTP_HELP) := fun hh => hno ⟨j, hj10, hj ▸ hm, Or.inr hh⟩
        simp only [LMTP_LHLO, LMTP_DATA, LMTP_RSET, LMTP_QUIT, LMTP_NOOP, LMTP_HELP] at hjn
        simp only [LMTP_MAIL, LMTP_VRFY, LMTP_EXPN, LMTP_RCPT]
        omega
      rw [tokenizer_no_argument session buffer _ hidle rfl (hi _ rfl) hv,
        lmtp_error_continue _ "500 This command requires an argument.\r\n".toList _
          (by decide) hf]
      exact ⟨rfl, hidle, rfl, rfl, Or.inr rfl⟩
    · have hend : scan_commands (split_command (strip_crlf buffer))
          (LMTP_END - LMTP_STRT) LMTP_STRT = LMTP_END := by
        have : LMTP_END = 10 := rfl
        omega
      rw [tokenizer_unknown session buffer hidle hend,
        lmtp_error_continue _ "500 Invalid command.\r\n".toList _ (by decide) hf]
      exact ⟨rfl, hidle, rfl, rfl, Or.inl rfl⟩
  · intro hnone hverb
    rw [← split_command_eq] at hverb
    rw [← split_value_eq] at hnone
    have hscan : ∃ i, scan_commands (split_command (strip_crlf buffer))
          (LMTP_END - LMTP_STRT) LMTP_STRT = i ∧
        (i = LMTP_MAIL ∨ i = LMTP_VRFY ∨ i = LMTP_EXPN ∨ i = LMTP_RCPT) := by
      rcases hverb with h | h | h | h
      · exact ⟨4, scan_commands_eq _ 4 (by decide) h, Or.inl rfl⟩
      · exact ⟨9, scan_commands_eq _ 9 (by decide) h, Or.inr (Or.inr (Or.inr rfl))⟩
      · exact ⟨5, scan_commands_eq _ 5 (by decide) h, Or.inr (Or.inl rfl)⟩
      · exact ⟨6, scan_commands_eq _ 6 (by decide) h, Or.inr (Or.inr (Or.inl rfl))⟩
    obtain ⟨i, hi, hcase⟩ := hscan
    rw [tokenizer_no_argument session buffer i hidle hi hcase hnone,
      lmtp_error_continue _ "500 This command requires an argument.\r\n".toList _
        (by decide) hf]

theorem tokenizer_accepts_per_table_witness :
    (client_session_new "mx".toList).command_type = 0 ∧
    (client_session_new "mx".toList).error_count < 3 ∧
    spec_accepts (strip_crlf "mail FROM:<a> BODY=7BIT\r\n".toList) = true ∧
    (∃ i, i < 10 ∧
      strcasecmp (spec_verb (strip_crlf "mail FROM:<a> BODY=7BIT\r\n".toList))
        (commands.getD i []) = 0 ∧
      (lmtp_tokenizer (client_session_new "mx".toList)
        "mail FROM:<a> BODY=7BIT\r\n".toList).2.command_type = i ∧
      (lmtp_tokenizer (client_session_new "mx".toList)
        "mail FROM:<a> BODY=7BIT\r\n".toList).2.args
        = (client_session_new "mx".toList).args
          ++ (spec_remainder (strip_crlf "mail FROM:<a> BODY=7BIT\r\n".toList)).toList ∧
      (lmtp_tokenizer (client_session_new "mx".toList)
        "mail FROM:<a> BODY=7BIT\r\n".toList).2.error_count
        = (client_session_new "mx".toList).error_count) :=
  ⟨by decide, by decide, by decide,
    (tokenizer_accepts_per_table (client_session_new "mx".toList)
      "mail FROM:<a> BODY=7BIT\r\n".toList (by decide) (by decide)).2.1 (by decide)⟩

end Rejections

/-! ## MAIL and RCPT out of sequence (C9), a second MAIL (C10) -/

section Sequencing

theorem mail_rcpt_out_of_sequence (env : Collaborators) (session : ClientSession_t)
    (hstate : session.state ≠ ClientState.Authenticated)
    (hcmd : session.command_type = LMTP_MAIL ∨ session.command_type = LMTP_RCPT) :
    lmtp env session =
      some (1, { session with
                  tx := session.tx ++ ["550 Command out of sequence.\r\n".toList] }) := by
  have hst : session.state ≠ IMAPCS_AUTHENTICATED := hstate
  rcases hcmd with h | h
  · rw [lmtp_of_mail env session h, lmtp_mail, if_pos hst]; rfl
  · rw [lmtp_of_rcpt env session h, lmtp_rcpt, if_pos hst]; rfl

theorem mail_rcpt_out_of_sequence_witness :
    early_mail_session.state ≠ ClientState.Authenticated ∧
    lmtp deliverable_env early_mail_session =
      some (1, { early_mail_session with
                  tx := early_mail_session.tx ++ ["550 Command out of sequence.\r\n".toList] }) :=
  ⟨by decide, mail_rcpt_out_of_sequence deliverable_env early_mail_session (by decide)
    (Or.inl (by decide))⟩

/-- C10: in an Authenticated session that already has a sender, dispatching MAIL with any
pending argument returns 1 and changes the session in one way only: the single reply
`500 Sender already received. Use RSET to clear.` is written; sender, recipients and
state are as before. Moreover no command dispatched by `lmtp` takes a session with at
most one sender to a session with more than one. -/
theorem mail_sender_already_received (env : Collaborators) (session : ClientSession_t)
    (hstate : session.state = ClientState.Authenticated)
    (hcmd : session.command_type = LMTP_MAIL)
    (hfrom : session.sender ≠ []) :
    lmtp env session =
      some (1, { session with
        tx := session.tx ++ ["500 Sender already received. Use RSET to clear.\r\n".toList] }) ∧
    (∀ (s : ClientSession_t) (r : Int × ClientSession_t),
      s.sender.length ≤ 1 → lmtp env s = some r → r.2.sender.length ≤ 1) := by
  refine ⟨?_, fun s r hs hr => lmtp_sender_le_one env s r hs hr⟩
  have hst : ¬ session.state ≠ IMAPCS_AUTHENTICATED := not_not.mpr hstate
  have hlen : session.sender.length > 0 := List.length_pos.mpr hfrom
  rw [lmtp_of_mail env session hcmd, lmtp_mail, if_neg hst, if_pos hlen]
  rfl

theorem mail_sender_already_received_witness :
    second_mail_session.state = ClientState.Authenticated ∧
    second_mail_session.sender = ["a".toList] ∧
    lmtp deliverable_env second_mail_session =
      some (1, { second_mail_session with
        tx := ["500 Sender already received. Use RSET to clear.\r\n".toList] }) :=
  ⟨by decide, by decide,
    (mail_sender_already_received deliverable_env second_mail_session (by decide) (by decide)
      (by decide)).1⟩

end Sequencing

/-! ## More on the tokenizer's DATA part and on the dispatcher's cases -/

section DataLine

/-- The tokenizer on a line whose verb is DATA, with no command in progress: the
command and the argument are recorded and the DATA part of the tokenizer runs. -/
theorem tokenizer_data_line (session : ClientSession_t) (buffer : Str)
    (hidle : session.command_type = 0)
    (hverb : strcasecmp (split_command (strip_crlf buffer)) "DATA".toList = 0) :
    lmtp_tokenizer session buffer =
      tokenizer_data
        { session with
          parser_state := FALSE, command_type := LMTP_DATA,
          args := session.args ++ (split_value (strip_crlf buffer)).toList }
        buffer true :=
  tokenizer_known session buffer LMTP_DATA hidle (scan_commands_eq _ 3 (by decide) hverb)
    (by decide) (Or.inr (Or.inr (Or.inl rfl)))

/-- A DATA line in an Authenticated session without recipients: 503. -/
theorem tokenizer_data_no_recipients (session : ClientSession_t) (buffer : Str)
    (hidle : session.command_type = 0)
    (hverb : strcasecmp (split_command (strip_crlf buffer)) "DATA".toList = 0)
    (hstate : session.state = ClientState.Authenticated)
    (hrcpt : g_list_length session.rcpt = 0) :
    lmtp_tokenizer session buffer =
      (1, { session with
              parser_state := FALSE, command_type := LMTP_DATA,
              args := session.args ++ (split_value (strip_crlf buffer)).toList,
              tx := session.tx ++ ["503 No valid recipients\r\n".toList] }) := by
  have h1 : g_list_length session.rcpt < 1 := by omega
  rw [tokenizer_data_line session buffer hidle hverb]
  simp only [tokenizer_data, ↓reduceIte, IMAPCS_AUTHENTICATED, hstate, ne_eq,
    not_true_eq_false, h1, ci_write, TRUE]

end DataLine

section Frames

/-- The MAIL case when the argument holds no address or an empty one. -/
theorem lmtp_mail_no_address (session : ClientSession_t) (arg : Str)
    (hstate : session.state = ClientState.Authenticated)
    (hfrom : session.sender = [])
    (harg : session.args.head? = some arg)
    (hlen : (find_bounded arg '<' '>').2.1 = 0) :
    lmtp_mail session =
      some (1, { session with tx := session.tx ++ ["500 No address found.\r\n".toList] }) := by
  have hst : ¬ session.state ≠ IMAPCS_AUTHENTICATED := not_not.mpr hstate
  have hs : ¬ session.sender.length > 0 := by rw [hfrom]; simp
  rw [lmtp_mail, if_neg hst, if_neg hs]
  simp only [first_arg, harg, hlen, ↓reduceIte]
  cases (find_bounded arg '<' '>').1 <;> rfl

/-- The MAIL case when the argument holds an address and the text after the first `=`
past the address is 8BITMIME up to case. -/
theorem lmtp_mail_eightbit (session : ClientSession_t) (arg addr body : Str)
    (hstate : session.state = ClientState.Authenticated)
    (hfrom : session.sender = [])
    (harg : session.args.head? = some arg)
    (haddr : (find_bounded arg '<' '>').1 = some addr)
    (hlen : (find_bounded arg '<' '>').2.1 ≠ 0)
    (hbody : mail_body arg (find_bounded arg '<' '>').2.2 = some body)
    (hmatch : strcasecmp body "8BITMIME".toList = 0) :
    lmtp_mail session =
      some (1, { session with
        tx := session.tx ++ ["500 Please use 7BIT MIME only.\r\n".toList] }) := by
  have hst : ¬ session.state ≠ IMAPCS_AUTHENTICATED := not_not.mpr hstate
  have hs : ¬ session.sender.length > 0 := by rw [hfrom]; simp
  have hm : MATCH body "8BITMIME".toList = true := by
    unfold MATCH; rw [hmatch]; rfl
  rw [lmtp_mail, if_neg hst, if_neg hs]
  simp only [first_arg, harg, haddr, hlen, hbody, ↓reduceIte, Option.any_some, hm]
  rfl

/-- The MAIL case returns and leaves state, error count and recipients alone. -/
theorem lmtp_mail_frame (session : ClientSession_t) :
    ∃ r, lmtp_mail session = some r ∧ r.2.state = session.state ∧
      r.2.error_count = session.error_count ∧ r.2.rcpt = session.rcpt := by
  unfold lmtp_mail
  split_ifs
  · exact ⟨_, rfl, rfl, rfl, rfl⟩
  · exact ⟨_, rfl, rfl, rfl, rfl⟩
  · split
    · exact ⟨_, rfl, rfl, rfl, rfl⟩
    · simp only
      split
      · exact ⟨_, rfl, rfl, rfl, rfl⟩
      · split_ifs <;> exact ⟨_, rfl, rfl, rfl, rfl⟩

/-- The RCPT case returns and leaves state, error count and sender alone. -/
theorem lmtp_rcpt_frame (env : Collaborators) (session : ClientSession_t) :
    ∃ r, lmtp_rcpt env session = some r ∧ r.2.state = session.state ∧
      r.2.error_count = session.error_count ∧ r.2.sender = session.sender := by
  unfold lmtp_rcpt
  split_ifs
  · exact ⟨_, rfl, rfl, rfl, rfl⟩
  · split
    · exact ⟨_, rfl, rfl, rfl, rfl⟩
    · simp only
      split_ifs
      · exact ⟨_, rfl, rfl, rfl, rfl⟩
      · split
        · exact ⟨_, rfl, rfl, rfl, rfl⟩
        · split_ifs <;> exact ⟨_, rfl, rfl, rfl, rfl⟩

/-- The HELP case returns and leaves state and error count alone. -/
theorem lmtp_help_frame (env : Collaborators) (session : ClientSession_t) :
    ∃ r, lmtp_help env session = some r ∧ r.2.state = session.state ∧
      r.2.error_count = session.error_count := by
  unfold lmtp_help
  simp only
  split_ifs <;> exact ⟨_, rfl, rfl, rfl⟩

/-- The DATA case, when it returns, leaves state and error count alone. -/
theorem lmtp_data_frame (env : Collaborators) (session : ClientSession_t)
    (r : Int × ClientSession_t) (hr : lmtp_data env session = some r) :
    r.2.state = session.state ∧ r.2.error_count = session.error_count := by
  unfold lmtp_data at hr
  split at hr
  · cases hr
  · simp only at hr
    split_ifs at hr
    · cases hr; exact ⟨rfl, rfl⟩
    · split at hr
      · cases hr
      · cases hr; simp [rcpt_walk_eq]

/-- No command of the table makes the dispatcher count an error. -/
theorem lmtp_error_count (env : Collaborators) (session : ClientSession_t)
    (r : Int × ClientSession_t) (hc : session.command_type < LMTP_END)
    (hr : lmtp env session = some r) : r.2.error_count = session.error_count := by
  rcases command_type_cases session.command_type with
    c | c | c | c | c | c | c | c | c | c | c
  · rw [lmtp_of_lhlo env session c] at hr
    obtain rfl := Option.some.inj hr; rfl
  · rw [lmtp_of_quit env session c] at hr
    obtain rfl := Option.some.inj hr; rfl
  · rw [lmtp_of_rset env session c] at hr
    obtain rfl := Option.some.inj hr; rfl
  · rw [lmtp_of_data env session c] at hr
    exact (lmtp_data_frame env session r hr).2
  · rw [lmtp_of_mail env session c] at hr
    obtain ⟨r', h1, _, h3, _⟩ := lmtp_mail_frame session
    rw [h1] at hr; obtain rfl := Option.some.inj hr; exact h3
  · rw [lmtp_of_vrfy env session c] at hr
    obtain rfl := Option.some.inj hr; rfl
  · rw [lmtp_of_expn env session c] at hr
    obtain rfl := Option.some.inj hr; rfl
  · rw [lmtp_of_help env session c] at hr
    obtain ⟨r', h1, _, h3⟩ := lmtp_help_frame env session
    rw [h1] at hr; obtain rfl := Option.some.inj hr; exact h3
  · rw [lmtp_of_noop env session c] at hr
    obtain rfl := Option.some.inj hr; rfl
  · rw [lmtp_of_rcpt env session c] at hr
    obtain ⟨r', h1, _, h3, _⟩ := lmtp_rcpt_frame env session
    rw [h1] at hr; obtain rfl := Option.some.inj hr; exact h3
  · exact absurd hc (by omega)

/-- Every command of the table but DATA makes the dispatcher return; LHLO sets the state
to Authenticated, QUIT to LoggedOut, the others leave it alone. -/
theorem lmtp_state (env : Collaborators) (session : ClientSession_t)
    (hc : session.command_type < LMTP_END) (hd : session.command_type ≠ LMTP_DATA) :
    ∃ r, lmtp env session = some r ∧
      (session.command_type = LMTP_LHLO → r.2.state = ClientState.Authenticated) ∧
      (session.command_type = LMTP_QUIT → r.2.state = ClientState.LoggedOut) ∧
      (session.command_type ≠ LMTP_LHLO → session.command_type ≠ LMTP_QUIT →
        r.2.state = session.state) := by
  rcases command_type_cases session.command_type with
    c | c | c | c | c | c | c | c | c | c | c
  · rw [lmtp_of_lhlo env session c]
    exact ⟨_, rfl, fun _ => rfl, fun h => absurd (c.symm.trans h) (by decide),
      fun h => absurd c h⟩
  · rw [lmtp_of_quit env session c]
    exact ⟨_, rfl, fun h => absurd (c.symm.trans h) (by decide), fun _ => rfl,
      fun _ h => absurd c h⟩
  · rw [lmtp_of_rset env session c]
    exact ⟨_, rfl, fun h => absurd (c.symm.trans h) (by decide),
      fun h => absurd (c.symm.trans h) (by decide), fun _ _ => rfl⟩
  · exact absurd c hd
  · rw [lmtp_of_mail env session c]
    obtain ⟨r, h1, h2, _⟩ := lmtp_mail_frame session
    exact ⟨r, h1, fun h => absurd (c.symm.trans h) (by decide),
      fun h => absurd (c.symm.trans h) (by decide), fun _ _ => h2⟩
  · rw [lmtp_of_vrfy env session c]
    exact ⟨_, rfl, fun h => absurd (c.symm.trans h) (by decide),
      fun h => absurd (c.symm.trans h) (by decide), fun _ _ => rfl⟩
  · rw [lmtp_of_expn env session c]
    exact ⟨_, rfl, fun h => absurd (c.symm.trans h) (by decide),
      fun h => absurd (c.symm.trans h) (by decide), fun _ _ => rfl⟩
  · rw [lmtp_of_help env session c]
    obtain ⟨r, h1, h2, _⟩ := lmtp_help_frame env session
    exact ⟨r, h1, fun h => absurd (c.symm.trans h) (by decide),
      fun h => absurd (c.symm.trans h) (by decide), fun _ _ => h2⟩
  · rw [lmtp_of_noop env session c]
    exact ⟨_, rfl, fun h => absurd (c.symm.trans h) (by decide),
      fun h => absurd (c.symm.trans h) (by decide), fun _ _ => rfl⟩
  · rw [lmtp_of_rcpt env session c]
    obtain ⟨r, h1, h2, _⟩ := lmtp_rcpt_frame env session
    exact ⟨r, h1, fun h => absurd (c.symm.trans h) (by decide),
      fun h => absurd (c.symm.trans h) (by decide), fun _ _ => h2⟩
  · exact absurd hc (by omega)

/-- What the RCPT case does once it has an address: the resolver is called and its
answer decides the reply and whether the recipient is kept. -/
theorem lmtp_rcpt_resolved (env : Collaborators) (session : ClientSession_t)
    (arg addr : Str)
    (hstate : session.state = ClientState.Authenticated)
    (hcmd : session.command_type = LMTP_RCPT)
    (harg : session.args.head? = some arg)
    (haddr : (find_bounded arg '<' '>').1 = some addr)
    (hlen : 1 ≤ (find_bounded arg '<' '>').2.1) :
    lmtp env session =
      match env.dsnuser_resolve addr with
      | none =>
        some (1, { session with
          tx := session.tx ++ ["430 Temporary failure in recipient lookup\r\n".toList],
          resolved := session.resolved ++ [addr] })
      | some dsn =>
        if dsn.class_ = DSN_CLASS_OK then
          some (1, { session with
            tx := session.tx ++ ["250 Recipient <".toList ++ addr ++ "> OK\r\n".toList],
            resolved := session.resolved ++ [addr],
            rcpt := g_list_prepend session.rcpt { address := addr, dsn := dsn } })
        else
          some (1, { session with
            tx := session.tx ++ ["550 Recipient <".toList ++ addr ++ "> FAIL\r\n".toList],
            resolved := session.resolved ++ [addr] }) := by
  have hst : ¬ session.state ≠ IMAPCS_AUTHENTICATED := not_not.mpr hstate
  have hl : ¬ (find_bounded arg '<' '>').2.1 < 1 := by omega
  rw [lmtp_of_rcpt env session hcmd, lmtp_rcpt, if_neg hst]
  cases hres : env.dsnuser_resolve addr with
  | none =>
    simp only [first_arg, harg, haddr, hl, Option.getD_some, ↓reduceIte, ci_write, hres]
  | some dsn =>
    by_cases hc : dsn.class_ = DSN_CLASS_OK <;>
      simp only [first_arg, harg, haddr, hl, Option.getD_some, ↓reduceIte, ci_write, hres, hc]

/-- The DATA case when the store fails. -/
theorem lmtp_data_store_failure (env : Collaborators) (session : ClientSession_t)
    (return_path : Str) (others : List Str)
    (hfrom : session.sender = return_path :: others)
    (hfail : env.insert_messages session.rbuff return_path session.rcpt = -1) :
    lmtp_data env session =
      some (1, { session with
        rbuff := [],
        inserted := session.inserted ++ [(session.rbuff, return_path, session.rcpt)],
        tx := session.tx ++ ["430 Message not received\r\n".toList] }) := by
  unfold lmtp_data
  rw [hfrom]
  simp only [hfail, ↓reduceIte, ci_write]

theorem begins_with_single (c : Char) (l : Str) :
    begins_with [c] l = (l.head? == some c) := by
  cases l with
  | nil => rfl
  | cons d rest =>
    show ([d].take 1 ++ rest.take 0 == [c]) = (some d == some c)
    by_cases hd : d = c <;> simp [hd]

/-- The first occurrence of a character that is not in the text before it. -/
theorem strstr_single (c : Char) (rest : Str) :
    ∀ xs : Str, c ∉ xs → strstr (xs ++ c :: rest) [c] = some xs.length
  | [], _ => by
    show strstr (c :: rest) [c] = some 0
    rw [strstr, begins_with_single]; simp
  | d :: xs, h => by
    have hd : ¬ d = c := fun e => h (by simp [e])
    have hx : c ∉ xs := fun e => h (by simp [e])
    show strstr (d :: (xs ++ c :: rest)) [c] = some (xs.length + 1)
    rw [strstr, begins_with_single, strstr_single c rest xs hx]
    simp [hd]

/-- The pointer `tmpbody` when the closing `>` is followed by text without `=`, then
`BODY=` and a value: the value. -/
theorem mail_body_of_keyword (arg mid value : Str) (tmppos : Nat)
    (hrest : arg.drop tmppos = '>' :: mid ++ "BODY=".toList ++ value)
    (hmid : '=' ∉ mid) :
    mail_body arg tmppos = some value := by
  have hxs : '=' ∉ '>' :: mid ++ "BODY".toList := by
    simp only [List.cons_append, List.mem_cons, List.mem_append, not_or]
    refine ⟨by decide, hmid, by decide⟩
  have hsplit : arg.drop tmppos = ('>' :: mid ++ "BODY".toList) ++ '=' :: value := by
    rw [hrest]; simp
  have hfound := strstr_single '=' value _ hxs
  unfold mail_body
  rw [hsplit]
  show (match strstr (('>' :: mid ++ "BODY".toList) ++ '=' :: value) ['='] with
    | some i => some (arg.drop (tmppos + i + 1))
    | none => none) = some value
  rw [hfound]
  simp only
  rw [Nat.add_assoc, ← List.drop_drop, hsplit]
  have hd : ∀ xs : Str, (xs ++ '=' :: value).drop (xs.length + 1) = value := by
    intro xs
    induction xs with
    | nil => rfl
    | cons x xs ih => simp
  rw [hd]

end Frames

/-! ## RCPT and the resolver (C11) -/

section Recipients

/-- C11: in an Authenticated session, RCPT with an argument that holds a non-empty
address between `<` and `>` calls the resolver on that address and then: when the
resolver succeeds with class OK, replies `250 Recipient <addr> OK` and puts the recipient
in front of the list (the earlier recipients follow in their order); when it succeeds
with another class, replies `550 Recipient <addr> FAIL` and keeps the list; when it fails,
replies `430 Temporary failure in recipient lookup` and keeps the list. Each time exactly
one reply is written and state and sender are as before; the list changes if and only if
the resolver succeeds with class OK. -/
theorem rcpt_resolver_outcomes (env : Collaborators) (session : ClientSession_t)
    (arg addr : Str)
    (hstate : session.state = ClientState.Authenticated)
    (hcmd : session.command_type = LMTP_RCPT)
    (harg : session.args.head? = some arg)
    (haddr : (find_bounded arg '<' '>').1 = some addr)
    (hlen : 1 ≤ (find_bounded arg '<' '>').2.1) :
    (∀ dsn, env.dsnuser_resolve addr = some dsn → dsn.class_ = DSN_CLASS_OK →
      lmtp env session =
        some (1, { session with
          tx := session.tx ++ ["250 Recipient <".toList ++ addr ++ "> OK\r\n".toList],
          resolved := session.resolved ++ [addr],
          rcpt := { prev := session.rcpt.prev,
                    next := { address := addr, dsn := dsn } :: session.rcpt.next } })) ∧
    (∀ dsn, env.dsnuser_resolve addr = some dsn → dsn.class_ ≠ DSN_CLASS_OK →
      lmtp env session =
        some (1, { session with
          tx := session.tx ++ ["550 Recipient <".toList ++ addr ++ "> FAIL\r\n".toList],
          resolved := session.resolved ++ [addr] })) ∧
    (env.dsnuser_resolve addr = none →
      lmtp env session =
        some (1, { session with
          tx := session.tx ++ ["430 Temporary failure in recipient lookup\r\n".toList],
          resolved := session.resolved ++ [addr] })) ∧
    (∃ after, lmtp env session = some (1, after) ∧
      after.state = session.state ∧ after.sender = session.sender ∧
      (after.rcpt ≠ session.rcpt ↔
        ∃ dsn, env.dsnuser_resolve addr = some dsn ∧ dsn.class_ = DSN_CLASS_OK)) := by
  have h := lmtp_rcpt_resolved env session arg addr hstate hcmd harg haddr hlen
  refine ⟨?_, ?_, ?_, ?_⟩
  · intro dsn hres hok
    rw [h, hres]; simp only [hok, ↓reduceIte]; rfl
  · intro dsn hres hno
    rw [h, hres]; simp only [hno, ↓reduceIte]
  · intro hres
    rw [h, hres]
  · rw [h]
    cases hres : env.dsnuser_resolve addr with
    | none => exact ⟨_, rfl, rfl, rfl, by simp⟩
    | some dsn =>
      by_cases hc : dsn.class_ = DSN_CLASS_OK
      · simp only [hc, ↓reduceIte]
        refine ⟨_, rfl, rfl, rfl, ?_⟩
        constructor
        · intro _; exact ⟨dsn, rfl, hc⟩
        · intro _ heq
          have := congrArg (fun l => (GList.next l).length) heq
          simp [g_list_prepend] at this
      · simp only [hc, ↓reduceIte]
        refine ⟨_, rfl, rfl, rfl, ?_⟩
        constructor
        · intro hne; exact absurd rfl hne
        · rintro ⟨d, hd, hd2⟩
          cases hd; exact absurd hd2 hc

theorem rcpt_resolver_outcomes_witness :
    (rcpt_session "TO:<b>".toList).state = ClientState.Authenticated ∧
    (find_bounded "TO:<b>".toList '<' '>').1 = some "b".toList ∧
    lmtp deliverable_env (rcpt_session "TO:<b>".toList) =
      some (1, { rcpt_session "TO:<b>".toList with
        tx := ["250 Recipient <b> OK\r\n".toList],
        resolved := ["b".toList],
        rcpt := { prev := [], next := [rcpt_b] } }) ∧
    lmtp rejecting_env (rcpt_session "TO:<b>".toList) =
      some (1, { rcpt_session "TO:<b>".toList with
        tx := ["550 Recipient <b> FAIL\r\n".toList],
        resolved := ["b".toList] }) ∧
    lmtp unavailable_env (rcpt_session "TO:<b>".toList) =
      some (1, { rcpt_session "TO:<b>".toList with
        tx := ["430 Temporary failure in recipient lookup\r\n".toList],
        resolved := ["b".toList] }) :=
  ⟨by decide, by decide,
    (rcpt_resolver_outcomes deliverable_env (rcpt_session "TO:<b>".toList) "TO:<b>".toList
      "b".toList (by decide) (by decide) (by decide) (by decide) (by decide)).1
      { class_ := 2, subject := 1, detail := 5 } (by decide) (by decide),
    (rcpt_resolver_outcomes rejecting_env (rcpt_session "TO:<b>".toList) "TO:<b>".toList
      "b".toList (by decide) (by decide) (by decide) (by decide) (by decide)).2.1
      { class_ := 5, subject := 1, detail := 1 } (by decide) (by decide),
    (rcpt_resolver_outcomes unavailable_env (rcpt_session "TO:<b>".toList) "TO:<b>".toList
      "b".toList (by decide) (by decide) (by decide) (by decide) (by decide)).2.2.1
      (by decide)⟩

end Recipients

/-! ## Body collection (C12), the envelope after DATA (C13), store failure (C14) -/

section BodyCollection

/-- C12 fails on the code for the end marker: in body collection the CRLF-terminated
line that holds a single dot is not taken for the end of the body but appended to the
buffer, with result 0; only a dot followed directly by LF marks the command complete.
Every line whose first two characters are not a dot and LF is appended verbatim to the
buffer, writes no reply, changes nothing else and returns the parser flag. -/
theorem crlf_dot_line_is_appended :
    lmtp_tokenizer body_session ".\r\n".toList
      = (0, { body_session with rbuff := "hello\r\n.\r\n".toList }) ∧
    lmtp_tokenizer body_session ".\n".toList
      = (TRUE, { body_session with parser_state := TRUE }) ∧
    (∀ (session : ClientSession_t) (buffer : Str),
      session.command_type = LMTP_DATA → buffer.take 2 ≠ ".\n".toList →
      lmtp_tokenizer session buffer
        = (session.parser_state, { session with rbuff := session.rbuff ++ buffer })) := by
  refine ⟨by decide, by decide, ?_⟩
  intro session buffer hcmd hdot
  have h0 : ¬ session.command_type = 0 := by rw [hcmd]; decide
  have hcmp : ¬ strncmp buffer ".\n".toList 2 = 0 := by
    unfold strncmp
    have : ¬ buffer.take 2 = (".\n".toList).take 2 := hdot
    simp only [this, ↓reduceIte]
    split_ifs <;> decide
  simp only [lmtp_tokenizer, h0, ↓reduceIte, tokenizer_data, hcmd, hcmp]
  rfl

/-- C14: at DATA dispatch, with any recipient list, when the store reports failure
(`insert_messages` returns -1 for the buffered message, the sender as Return-Path and
the recipients) `lmtp` returns 1 and writes exactly one reply, `430 Message not
received`, and no line for any recipient; the buffer is emptied; state, sender and
recipients are as before. -/
theorem store_failure_single_reply (env : Collaborators) (session : ClientSession_t)
    (return_path : Str) (others : List Str)
    (hcmd : session.command_type = LMTP_DATA)
    (hfrom : session.sender = return_path :: others)
    (hfail : env.insert_messages session.rbuff return_path session.rcpt = -1) :
    lmtp env session =
      some (1, { session with
        rbuff := [],
        inserted := session.inserted ++ [(session.rbuff, return_path, session.rcpt)],
        tx := session.tx ++ ["430 Message not received\r\n".toList] }) := by
  rw [lmtp_of_data env session hcmd]
  exact lmtp_data_store_failure env session return_path others hfrom hfail

theorem store_failure_single_reply_witness :
    body_session.command_type = LMTP_DATA ∧
    body_session.sender = ["a".toList] ∧
    failing_store_env.insert_messages body_session.rbuff "a".toList body_session.rcpt = -1 ∧
    lmtp failing_store_env body_session =
      some (1, { body_session with
        rbuff := [],
        inserted := [("hello\r\n".toList, "a".toList, { prev := [], next := [rcpt_b] })],
        tx := ["430 Message not received\r\n".toList] }) :=
  ⟨by decide, by decide, by decide,
    store_failure_single_reply failing_store_env body_session "a".toList [] (by decide)
      (by decide) (by decide)⟩

end BodyCollection

/-! ## MAIL parameters (C15, C16) -/

section MailParameters

/-- C15 as stated fails when the address is missing or empty: MAIL with
`FROM:<> BODY=8BITMIME`, or with `BODY=8BITMIME` alone, gets the reply
`500 No address found.`, not the 7-bit reply. -/
theorem eightbit_without_address :
    lmtp deliverable_env (mail_session "FROM:<> BODY=8BITMIME".toList)
      = some (1, { mail_session "FROM:<> BODY=8BITMIME".toList with
          tx := ["500 No address found.\r\n".toList] }) ∧
    lmtp deliverable_env (mail_session "BODY=8BITMIME".toList)
      = some (1, { mail_session "BODY=8BITMIME".toList with
          tx := ["500 No address found.\r\n".toList] }) := by
  decide

/-- C15 (amended): in an Authenticated session with no sender set, dispatching MAIL
sets no sender and writes exactly one reply in both of these cases: when the argument
holds a non-empty address between `<` and `>` and the closing `>` is followed by text
without `=` and then by `BODY=` and a value that is 8BITMIME up to case, the reply is
`500 Please use 7BIT MIME only.`; when the argument holds no address between `<` and `>`
or an empty one, the reply is `500 No address found.`, whatever parameters it carries. -/
theorem eightbit_needs_address (env : Collaborators) (session : ClientSession_t)
    (arg : Str)
    (hstate : session.state = ClientState.Authenticated)
    (hcmd : session.command_type = LMTP_MAIL)
    (hfrom : session.sender = [])
    (harg : session.args.head? = some arg) :
    (∀ addr mid value : Str,
      (find_bounded arg '<' '>').1 = some addr →
      (find_bounded arg '<' '>').2.1 ≠ 0 →
      arg.drop (find_bounded arg '<' '>').2.2 = '>' :: mid ++ "BODY=".toList ++ value →
      '=' ∉ mid →
      strcasecmp value "8BITMIME".toList = 0 →
      lmtp env session =
        some (1, { session with
          tx := session.tx ++ ["500 Please use 7BIT MIME only.\r\n".toList] })) ∧
    ((find_bounded arg '<' '>').2.1 = 0 →
      lmtp env session =
        some (1, { session with
          tx := session.tx ++ ["500 No address found.\r\n".toList] })) := by
  rw [lmtp_of_mail env session hcmd]
  exact ⟨fun addr mid value h1 h2 h3 h4 h5 =>
      lmtp_mail_eightbit session arg addr value hstate hfrom harg h1 h2
        (mail_body_of_keyword arg mid value _ h3 h4) h5,
    fun h => lmtp_mail_no_address session arg hstate hfrom harg h⟩

theorem eightbit_needs_address_witness :
    (mail_session "FROM:<a> BODY=8bitMIME".toList).state = ClientState.Authenticated ∧
    (mail_session "FROM:<a> BODY=8bitMIME".toList).sender = [] ∧
    (find_bounded "FROM:<a> BODY=8bitMIME".toList '<' '>').1 = some "a".toList ∧
    lmtp deliverable_env (mail_session "FROM:<a> BODY=8bitMIME".toList) =
      some (1, { mail_session "FROM:<a> BODY=8bitMIME".toList with
        tx := ["500 Please use 7BIT MIME only.\r\n".toList] }) ∧
    lmtp deliverable_env (mail_session "FROM:a BODY=8bitMIME".toList) =
      some (1, { mail_session "FROM:a BODY=8bitMIME".toList with
        tx := ["500 No address found.\r\n".toList] }) :=
  ⟨by decide, by decide, by decide,
    (eightbit_needs_address deliverable_env (mail_session "FROM:<a> BODY=8bitMIME".toList)
      "FROM:<a> BODY=8bitMIME".toList (by decide) (by decide) (by decide) (by decide)).1
      "a".toList " ".toList "8bitMIME".toList (by decide) (by decide) (by decide)
      (by decide) (by decide),
    (eightbit_needs_address deliverable_env (mail_session "FROM:a BODY=8bitMIME".toList)
      "FROM:a BODY=8bitMIME".toList (by decide) (by decide) (by decide) (by decide)).2
      (by decide)⟩

/-- C16 fails on the code: the BODY keyword is not looked for. The value compared is
the whole text after the first `=` that follows the address, so `SIZE=100 BODY=8BITMIME`
and `BODY=8BITMIME SIZE=100` are accepted (the sender is set, the reply is 250) and
`SIZE=8BITMIME` is rejected with the 7-bit reply. -/
theorem body_keyword_not_searched :
    lmtp deliverable_env (mail_session "FROM:<a> SIZE=100 BODY=8BITMIME".toList)
      = some (1, { mail_session "FROM:<a> SIZE=100 BODY=8BITMIME".toList with
          sender := ["a".toList], tx := ["250 Sender <a> OK\r\n".toList] }) ∧
    lmtp deliverable_env (mail_session "FROM:<a> BODY=8BITMIME SIZE=100".toList)
      = some (1, { mail_session "FROM:<a> BODY=8BITMIME SIZE=100".toList with
          sender := ["a".toList], tx := ["250 Sender <a> OK\r\n".toList] }) ∧
    lmtp deliverable_env (mail_session "FROM:<a> SIZE=8BITMIME".toList)
      = some (1, { mail_session "FROM:<a> SIZE=8BITMIME".toList with
          tx := ["500 Please use 7BIT MIME only.\r\n".toList] }) ∧
    lmtp deliverable_env (mail_session "FROM:<a> BODY=8BITMIME".toList)
      = some (1, { mail_session "FROM:<a> BODY=8BITMIME".toList with
          tx := ["500 Please use 7BIT MIME only.\r\n".toList] }) := by
  decide

end MailParameters

/-! ## RSET and LHLO (C17), LoggedOut (C18) -/

section Reset

/-- C17: dispatching RSET returns 1, writes exactly `250 OK`, clears sender, recipients
and buffer and leaves state, error count and all other fields alone; when the state is
Authenticated, a DATA line sent next (after the parser reset of the read handler) gets
the reply `503 No valid recipients` from the tokenizer. Dispatching LHLO returns 1, writes
the banner of four lines (hostname, PIPELINING, ENHANCEDSTATUSCODES, SIZE) in one piece,
clears sender, recipients and buffer, leaves the error count alone and sets the state to
Authenticated whatever it was. -/
theorem rset_lhlo_clear_envelope (env : Collaborators) (session : ClientSession_t) :
    (session.command_type = LMTP_RSET →
      lmtp env session =
        some (1, { session with
          tx := session.tx ++ ["250 OK\r\n".toList],
          sender := [], rcpt := GList.NULL, rbuff := [] }) ∧
      (session.state = ClientState.Authenticated →
        ∀ buffer : Str, strcasecmp (split_command (strip_crlf buffer)) "DATA".toList = 0 →
          (lmtp_tokenizer
            (client_session_reset_parser_
              { session with
                tx := session.tx ++ ["250 OK\r\n".toList],
                sender := [], rcpt := GList.NULL, rbuff := [] }) buffer).2.tx
            = session.tx ++ ["250 OK\r\n".toList, "503 No valid recipients\r\n".toList])) ∧
    (session.command_type = LMTP_LHLO →
      lmtp env session =
        some (1, { session with
          tx := session.tx ++ ["250-".toList ++ session.hostname
            ++ "\r\n250-PIPELINING\r\n250-ENHANCEDSTATUSCODES\r\n250 SIZE\r\n".toList],
          sender := [], rcpt := GList.NULL, rbuff := [],
          state := ClientState.Authenticated })) := by
  refine ⟨fun h => ⟨?_, ?_⟩, fun h => ?_⟩
  · rw [lmtp_of_rset env session h]; rfl
  · intro hstate buffer hverb
    rw [tokenizer_data_no_recipients
      (client_session_reset_parser_
        { session with
          tx := session.tx ++ ["250 OK\r\n".toList],
          sender := [], rcpt := GList.NULL, rbuff := [] })
      buffer rfl hverb hstate rfl]
    simp [client_session_reset_parser_]
  · rw [lmtp_of_lhlo env session h]; rfl

theorem rset_lhlo_clear_envelope_witness :
    (rset_session.sender = ["a".toList] ∧ rset_session.rcpt.next = [rcpt_b] ∧
      rset_session.rbuff = "hello\r\n".toList) ∧
    lmtp deliverable_env rset_session =
      some (1, { rset_session with
        tx := ["250 OK\r\n".toList], sender := [], rcpt := GList.NULL, rbuff := [] }) ∧
    lmtp deliverable_env { logged_out_session with sender := ["a".toList] } =
      some (1, { logged_out_session with
        tx := [banner_mx], state := ClientState.Authenticated }) :=
  ⟨by decide,
    ((rset_lhlo_clear_envelope deliverable_env rset_session).1 (by decide)).1,
    (rset_lhlo_clear_envelope deliverable_env
      { logged_out_session with sender := ["a".toList] }).2 (by decide)⟩

/-- C18 as stated fails: LoggedOut is left again by LHLO. After QUIT (or after the
idle timeout) the line LHLO is dispatched like in any other state and sets the state to
Authenticated. -/
theorem logged_out_left_by_lhlo :
    (lmtp_cb_read deliverable_env (client_session_new "mx".toList)
        ["QUIT\r\n".toList]).map (fun s => (s.state, s.tx))
      = some (ClientState.LoggedOut, ["221 mx BYE\r\n".toList]) ∧
    (lmtp_cb_read deliverable_env (client_session_new "mx".toList)
        ["QUIT\r\n".toList, "LHLO\r\n".toList]).map (fun s => (s.state, s.tx))
      = some (ClientState.Authenticated, ["221 mx BYE\r\n".toList, banner_mx]) ∧
    (lmtp_cb_read_line deliverable_env (lmtp_cb_time (client_session_new "mx".toList))
        "LHLO\r\n".toList).map (fun s => (s.state, s.tx))
      = some (ClientState.Authenticated,
          ["221 Connection timeout BYE\r\n".toList, banner_mx]) := by
  decide

/-- C18 (amended): QUIT replies `221 <hostname> BYE` and the idle-timeout callback
replies `221 Connection timeout BYE`; both set the state to LoggedOut and change nothing
else. LoggedOut is not terminal: for a session in state LoggedOut with no command in
progress and a line the tokenizer accepts as a command other than DATA, the read handler
returns, and the state after the line is Authenticated when the command is LHLO and
LoggedOut when it is QUIT, RSET, NOOP, HELP, VRFY, EXPN, MAIL or RCPT. -/
theorem logged_out_until_lhlo (env : Collaborators) (session : ClientSession_t)
    (buffer : Str) (i : Nat)
    (hstate : session.state = ClientState.LoggedOut)
    (hidle : session.command_type = 0)
    (hi : i < 10)
    (hverb : strcasecmp (spec_verb (strip_crlf buffer)) (commands.getD i []) = 0)
    (harg : spec_remainder (strip_crlf buffer) ≠ none ∨
      i = LMTP_LHLO ∨ i = LMTP_DATA ∨ i = LMTP_RSET ∨ i = LMTP_QUIT ∨ i = LMTP_NOOP ∨
      i = LMTP_HELP)
    (hdata : i ≠ LMTP_DATA) :
    (∃ after, lmtp_cb_read_line env session buffer = some after ∧
      (i = LMTP_LHLO → after.state = ClientState.Authenticated) ∧
      (i ≠ LMTP_LHLO → after.state = ClientState.LoggedOut)) ∧
    (∀ s : ClientSession_t, s.command_type = LMTP_QUIT →
      lmtp env s =
        some (1, { s with
          tx := s.tx ++ ["221 ".toList ++ s.hostname ++ " BYE\r\n".toList],
          state := ClientState.LoggedOut })) ∧
    (∀ s : ClientSession_t,
      lmtp_cb_time s =
        { s with
          tx := s.tx ++ ["221 Connection timeout BYE\r\n".toList],
          state := ClientState.LoggedOut }) := by
  refine ⟨?_, fun s h => by rw [lmtp_of_quit env s h]; rfl, fun s => rfl⟩
  rw [← split_command_eq] at hverb
  rw [← split_value_eq] at harg
  have htok := tokenizer_known session buffer i hidle (scan_commands_eq _ i hi hverb) hi harg
  have hdata2 : ¬ i = LMTP_DATA := hdata
  have hne : (1 : Int) ≠ 0 := by decide
  unfold lmtp_cb_read_line
  rw [htok]
  simp only [tokenizer_data, hdata2, ↓reduceIte, TRUE, ne_eq, hne, not_false_eq_true]
  obtain ⟨r, h1, h2, h3, h4⟩ := lmtp_state env
    { session with
      parser_state := 1, command_type := i,
      args := session.args ++ (split_value (strip_crlf buffer)).toList }
    (by show i < LMTP_END; exact hi) hdata
  rw [h1]
  refine ⟨_, rfl, fun h => h2 h, fun h => ?_⟩
  show r.2.state = ClientState.LoggedOut
  by_cases hq : i = LMTP_QUIT
  · exact h3 hq
  · rw [h4 h hq]; exact hstate

theorem logged_out_until_lhlo_witness :
    (logged_out_session.state = ClientState.LoggedOut ∧
      logged_out_session.command_type = 0) ∧
    (∃ after, lmtp_cb_read_line deliverable_env logged_out_session "lhlo there\r\n".toList
        = some after ∧
      (0 = LMTP_LHLO → after.state = ClientState.Authenticated) ∧
      (0 ≠ LMTP_LHLO → after.state = ClientState.LoggedOut)) ∧
    (∃ after, lmtp_cb_read_line deliverable_env logged_out_session "NOOP\r\n".toList
        = some after ∧
      (8 = LMTP_LHLO → after.state = ClientState.Authenticated) ∧
      (8 ≠ LMTP_LHLO → after.state = ClientState.LoggedOut)) :=
  ⟨⟨by decide, by decide⟩,
    (logged_out_until_lhlo deliverable_env logged_out_session "lhlo there\r\n".toList 0
      (by decide) (by decide) (by decide) (by decide) (by decide) (by decide)).1,
    (logged_out_until_lhlo deliverable_env logged_out_session "NOOP\r\n".toList 8
      (by decide) (by decide) (by decide) (by decide) (by decide) (by decide)).1⟩

end Reset

/-! ## What counts as an error (C19) and the tokenizer's result (C20) -/

section ErrorCount

/-- C19 as stated fails: a rejection written by the dispatcher is not counted. MAIL
before LHLO gets the reply 550 and the error count stays 0; so does a DATA line without
recipients, which gets 503 from the tokenizer. -/
theorem rejection_not_counted :
    early_mail_session.error_count = 0 ∧
    (lmtp deliverable_env early_mail_session).map (fun r => (r.2.tx, r.2.error_count))
      = some (["550 Command out of sequence.\r\n".toList], 0) ∧
    sender_session.error_count = 0 ∧
    ((lmtp_tokenizer sender_session "DATA\r\n".toList).2.tx,
      (lmtp_tokenizer sender_session "DATA\r\n".toList).2.error_count)
      = (["503 No valid recipients\r\n".toList], 0) := by
  decide

/-- C19 (amended): for a session with fewer than three errors counted, the error guard
is used, and the error count goes up by exactly one, for the two rejections of the
tokenizer: an unknown verb and a missing required argument. The other rejections are
written directly and leave the error count as it is: MAIL or RCPT before LHLO (550), a
second MAIL while a sender is set (500), a MAIL or RCPT argument without a non-empty
address in angle brackets (500), and a DATA line that fails a precondition (550, 503 or
554); no command of the table makes `lmtp` count an error. -/
theorem error_count_only_in_tokenizer (env : Collaborators) (session : ClientSession_t)
    (herr : session.error_count < 3) :
    (∀ buffer : Str, session.command_type = 0 →
      (∀ name ∈ commands, strcasecmp (spec_verb (strip_crlf buffer)) name ≠ 0) →
      (lmtp_tokenizer session buffer).2.error_count = session.error_count + 1) ∧
    (∀ buffer : Str, session.command_type = 0 →
      spec_remainder (strip_crlf buffer) = none →
      (strcasecmp (spec_verb (strip_crlf buffer)) "MAIL".toList = 0 ∨
        strcasecmp (spec_verb (strip_crlf buffer)) "RCPT".toList = 0 ∨
        strcasecmp (spec_verb (strip_crlf buffer)) "VRFY".toList = 0 ∨
        strcasecmp (spec_verb (strip_crlf buffer)) "EXPN".toList = 0) →
      (lmtp_tokenizer session buffer).2.error_count = session.error_count + 1) ∧
    (session.state ≠ ClientState.Authenticated →
      (session.command_type = LMTP_MAIL ∨ session.command_type = LMTP_RCPT) →
      ∃ r, lmtp env session = some r ∧
        r.2.tx = session.tx ++ ["550 Command out of sequence.\r\n".toList] ∧
        r.2.error_count = session.error_count) ∧
    (session.state = ClientState.Authenticated → session.command_type = LMTP_MAIL →
      session.sender ≠ [] →
      ∃ r, lmtp env session = some r ∧
        r.2.tx = session.tx
          ++ ["500 Sender already received. Use RSET to clear.\r\n".toList] ∧
        r.2.error_count = session.error_count) ∧
    (session.state = ClientState.Authenticated →
      (session.command_type = LMTP_MAIL ∧ session.sender = [] ∨
        session.command_type = LMTP_RCPT) →
      ∀ arg : Str, session.args.head? = some arg →
        (find_bounded arg '<' '>').2.1 = 0 →
        ∃ r, lmtp env session = some r ∧
          r.2.tx = session.tx ++ ["500 No address found.\r\n".toList] ∧
          r.2.error_count = session.error_count) ∧
    (∀ buffer : Str, session.command_type = 0 →
      strcasecmp (spec_verb (strip_crlf buffer)) "DATA".toList = 0 →
      (lmtp_tokenizer session buffer).2.error_count = session.error_count) ∧
    (∀ r, session.command_type < LMTP_END → lmtp env session = some r →
      r.2.error_count = session.error_count) := by
  have hf : ({ session with parser_state := FALSE } : ClientSession_t).error_count < 3 := herr
  refine ⟨?_, ?_, ?_, ?_, ?_, ?_, fun r hc hr => lmtp_error_count env session r hc hr⟩
  · intro buffer hidle hverb
    rw [← split_command_eq] at hverb
    rw [tokenizer_unknown session buffer hidle (scan_commands_end _ hverb),
      lmtp_error_continue _ "500 Invalid command.\r\n".toList _ (by decide) hf]
  · intro buffer hidle hnone hverb
    rw [← split_command_eq] at hverb
    rw [← split_value_eq] at hnone
    have hscan : ∃ i, scan_commands (split_command (strip_crlf buffer))
          (LMTP_END - LMTP_STRT) LMTP_STRT = i ∧
        (i = LMTP_MAIL ∨ i = LMTP_VRFY ∨ i = LMTP_EXPN ∨ i = LMTP_RCPT) := by
      rcases hverb with h | h | h | h
      · exact ⟨4, scan_commands_eq _ 4 (by decide) h, Or.inl rfl⟩
      · exact ⟨9, scan_commands_eq _ 9 (by decide) h, Or.inr (Or.inr (Or.inr rfl))⟩
      · exact ⟨5, scan_commands_eq _ 5 (by decide) h, Or.inr (Or.inl rfl)⟩
      · exact ⟨6, scan_commands_eq _ 6 (by decide) h, Or.inr (Or.inr (Or.inl rfl))⟩
    obtain ⟨i, hi, hcase⟩ := hscan
    rw [tokenizer_no_argument session buffer i hidle hi hcase hnone,
      lmtp_error_continue _ "500 This command requires an argument.\r\n".toList _
        (by decide) hf]
  · intro hstate hcmd
    have hst : session.state ≠ IMAPCS_AUTHENTICATED := hstate
    rcases hcmd with h | h
    · rw [lmtp_of_mail env session h, lmtp_mail, if_pos hst]
      exact ⟨_, rfl, rfl, rfl⟩
    · rw [lmtp_of_rcpt env session h, lmtp_rcpt, if_pos hst]
      exact ⟨_, rfl, rfl, rfl⟩
  · intro hstate hcmd hfrom
    have hst : ¬ session.state ≠ IMAPCS_AUTHENTICATED := not_not.mpr hstate
    have hlen : session.sender.length > 0 := List.length_pos.mpr hfrom
    rw [lmtp_of_mail env session hcmd, lmtp_mail, if_neg hst, if_pos hlen]
    exact ⟨_, rfl, rfl, rfl⟩
  · intro hstate hcmd arg harg hlen
    rcases hcmd with ⟨h, hfrom⟩ | h
    · rw [lmtp_of_mail env session h,
        lmtp_mail_no_address session arg hstate hfrom harg hlen]
      exact ⟨_, rfl, rfl, rfl⟩
    · have hst : ¬ session.state ≠ IMAPCS_AUTHENTICATED := not_not.mpr hstate
      rw [lmtp_of_rcpt env session h, lmtp_rcpt, if_neg hst]
      simp only [first_arg, harg, hlen, Nat.lt_one_iff, ↓reduceIte]
      exact ⟨_, rfl, rfl, rfl⟩
  · intro buffer hidle hverb
    rw [← split_command_eq] at hverb
    rw [tokenizer_data_line session buffer hidle hverb]
    exact (tokenizer_data_frame _ buffer true).2.2

theorem error_count_only_in_tokenizer_witness :
    sender_session.error_count < 3 ∧
    (lmtp_tokenizer sender_session "FOO\r\n".toList).2.error_count
      = sender_session.error_count + 1 ∧
    (lmtp_tokenizer sender_session "rcpt\r\n".toList).2.error_count
      = sender_session.error_count + 1 ∧
    (lmtp_tokenizer sender_session "DATA\r\n".toList).2.error_count
      = sender_session.error_count :=
  ⟨by decide,
    (error_count_only_in_tokenizer deliverable_env sender_session (by decide)).1
      "FOO\r\n".toList (by decide) (by decide),
    (error_count_only_in_tokenizer deliverable_env sender_session (by decide)).2.1
      "rcpt\r\n".toList (by decide) (by decide) (by decide),
    (error_count_only_in_tokenizer deliverable_env sender_session
      (by decide)).2.2.2.2.2.1 "DATA\r\n".toList (by decide) (by decide)⟩

/-- C20 fails on the code: the tokenizer's result for a line rejected through the error
guard is 1, the result for a complete command. For the unknown verb FOO and for MAIL
without argument it returns 1, as for NOOP, so the read handler runs `lmtp` for the
rejected line: in a session with sender a and recipient b the line FOO is followed by the
rejection and by the LHLO banner, and the sender and the recipient are gone. -/
theorem rejected_line_is_dispatched :
    (lmtp_tokenizer ready_session "FOO\r\n".toList).1 = 1 ∧
    (lmtp_tokenizer ready_session "MAIL\r\n".toList).1 = 1 ∧
    (lmtp_tokenizer ready_session "NOOP\r\n".toList).1 = 1 ∧
    (lmtp_cb_read_line deliverable_env ready_session "FOO\r\n".toList).map
      (fun s => (s.tx, s.sender, s.rcpt, s.state))
      = some (["500 Invalid command.\r\n".toList, banner_mx], [], GList.NULL,
          ClientState.Authenticated) ∧
    (lmtp_cb_read_line deliverable_env (client_session_new "mx".toList)
        "MAIL\r\n".toList).map (fun s => (s.tx, s.state))
      = some (["500 This command requires an argument.\r\n".toList, banner_mx],
          ClientState.Authenticated) := by
  decide

end ErrorCount

end Lmtp
